import Mathlib

/-!
# Verification of the postgres-client message codec and adapters

Shallow embedding of the repository's message codec
(`src/messages/*`), byte readers (`src/readers.rs`), and the
message-sequence adapters (`src/frontend.rs`, `src/backend/sync.rs`,
`src/backend/async.rs`).

Modelling conventions:
* A byte stream is a `List Nat`, one element per byte.
* The blocking readers become functions `List Nat → RR α` returning
  the parsed value together with the remaining stream, a recoverable
  `Err` together with the remaining stream, or a panic.  The stream
  model is the ideal transport in which a `read` call returns
  `min(requested, available)` bytes (exact for the `Cursor` used in
  the sources' tests); consequently the remainder after an error is
  determined, and theorems below only rely on it for errors raised
  after all reads of the failing call completed.
* Rust `u16`/`u32` values are `Nat`s; casts and overflow appear as
  explicit `% 65536` / `% 4294967296`; `usize` subtraction appears as
  truncated `Nat` subtraction, and theorems are restricted to the
  lengths where this matches the source.
* A Rust `String` is represented by the byte list of its UTF-8
  encoding; the `String::from_utf8` validity check is elided (it
  always succeeds on the byte lists produced by the encoders, which is
  where the theorems below evaluate it).
* `panic!` / failed `assert_eq!` are modelled by the distinguished
  `panicked` outcome, which propagates like an unwind.
-/

/-- Outcome of running a reader on a byte stream: a value and the rest
of the stream, an `Err` and the rest of the stream, or a panic. -/
inductive RR (α : Type) where
  | ok : α → List Nat → RR α
  | err : String → List Nat → RR α
  | panicked : String → RR α
deriving DecidableEq

/-- Sequencing of reader outcomes, mirroring Rust's `?` operator:
errors and panics propagate. -/
def RR.then {α β : Type} (x : RR α) (f : α → List Nat → RR β) : RR β :=
  match x with
  | .ok a s => f a s
  | .err m r => .err m r
  | .panicked m => .panicked m

/-- Outcome of a computation that cannot report a recoverable error
but may panic (`TransactionStatus::from_u8` / `to_u8`, encoders that
call them). -/
inductive PR (α : Type) where
  | ok : α → PR α
  | panicked : String → PR α
deriving DecidableEq

/-- `readers::read_u8`. -/
def read_u8 (s : List Nat) : RR Nat :=
  match s with
  | [] => .err "failed to fill whole buffer" []
  | b :: rest => .ok b rest

/-- `readers::read_u16` (two big-endian bytes). -/
def read_u16 (s : List Nat) : RR Nat :=
  match s with
  | b0 :: b1 :: rest => .ok (b0 * 256 + b1) rest
  | _ => .err "failed to fill whole buffer" []

/-- `readers::read_u32` (four big-endian bytes). -/
def read_u32 (s : List Nat) : RR Nat :=
  match s with
  | b0 :: b1 :: b2 :: b3 :: rest =>
      .ok (((b0 * 256 + b1) * 256 + b2) * 256 + b3) rest
  | _ => .err "failed to fill whole buffer" []

/-- `readers::read_bytes`: exact-length read into a fresh buffer. -/
def read_bytes (length : Nat) (s : List Nat) : RR (List Nat) :=
  if length ≤ s.length then .ok (s.take length) (s.drop length)
  else .err "failed to fill whole buffer" []

/-- `readers::read_string`: bytes until and including a NUL,
returning the bytes before the NUL. -/
def read_string : List Nat → RR (List Nat)
  | [] => .err "failed to fill whole buffer" []
  | b :: rest =>
    if b = 0 then .ok [] rest
    else
      match read_string rest with
      | .ok v r => .ok (b :: v) r
      | .err m r => .err m r
      | .panicked m => .panicked m

/-- Big-endian bytes of a `u16` (`to_be_bytes`). -/
def be16 (n : Nat) : List Nat := [n / 256 % 256, n % 256]

/-- Big-endian bytes of a `u32` (`to_be_bytes`). -/
def be32 (n : Nat) : List Nat :=
  [n / 16777216 % 256, n / 65536 % 256, n / 256 % 256, n % 256]

/-- `state::TransactionStatus`. -/
inductive TransactionStatus where
  | unknown
  | idle
  | inTransaction
  | inFailedTransaction
deriving DecidableEq

/-- `TransactionStatus::from_u8` (`I`/`T`/`E`; panics otherwise). -/
def TransactionStatus.from_u8 (value : Nat) : PR TransactionStatus :=
  if value = 73 then .ok .idle
  else if value = 84 then .ok .inTransaction
  else if value = 69 then .ok .inFailedTransaction
  else .panicked "unknown transaction status"

/-- `TransactionStatus::to_u8` (panics on `Unknown`). -/
def TransactionStatus.to_u8 : TransactionStatus → PR Nat
  | .idle => .ok 73
  | .inTransaction => .ok 84
  | .inFailedTransaction => .ok 69
  | .unknown => .panicked "unknown transaction status"

/-- `messages::frontend::SimpleQuery`. -/
structure SimpleQuery where
  query : List Nat
deriving DecidableEq

/-- `messages::frontend::Termination`. -/
structure Termination where
deriving DecidableEq

/-- `messages::frontend::FrontendMessage`. -/
inductive FrontendMessage where
  | simpleQuery : SimpleQuery → FrontendMessage
  | termination : Termination → FrontendMessage
deriving DecidableEq

/-- `messages::backend::ReadyForQuery` (backend operational variant). -/
structure ReadyForQuery where
  transaction_status : TransactionStatus
deriving DecidableEq

/-- `messages::backend::row_description::RDField`. -/
structure RDField where
  name : List Nat
  table_oid : Nat
  column_index : Nat
  data_type_oid : Nat
  data_type_size : Nat
  type_modifier : Nat
  format_code : Nat
deriving DecidableEq

/-- `messages::backend::RowDescription`. -/
structure RowDescription where
  fields : List RDField
deriving DecidableEq

/-- `messages::backend::DataRow` (a `None` field is SQL NULL). -/
structure DataRow where
  fields : List (Option (List Nat))
deriving DecidableEq

/-- `messages::backend::NoData`. -/
structure NoData where
deriving DecidableEq

/-- `messages::backend::EmptyQueryResponse`. -/
structure EmptyQueryResponse where
deriving DecidableEq

/-- `messages::backend::CommandComplete`. -/
structure CommandComplete where
  tag : List Nat
deriving DecidableEq

/-- `messages::backend::BackendMessage` (the `error` payload is the
raw `length` field of the consumed frame). -/
inductive BackendMessage where
  | readyForQuery : ReadyForQuery → BackendMessage
  | rowDescription : RowDescription → BackendMessage
  | dataRow : DataRow → BackendMessage
  | noData : NoData → BackendMessage
  | commandComplete : CommandComplete → BackendMessage
  | emptyQueryResponse : EmptyQueryResponse → BackendMessage
  | error : Nat → BackendMessage
deriving DecidableEq

/-- `messages::ssl::SSLRequest`. -/
structure SSLRequest where
deriving DecidableEq

/-- `messages::startup::Startup` (the stored `length` field is a
`u32`; `parameters` are key/value pairs of UTF-8 bytes). -/
structure Startup where
  length : Nat
  protocol_major_version : Nat
  protocol_minor_version : Nat
  parameters : List (List Nat × List Nat)
deriving DecidableEq

/-- `messages::startup::CancelRequest`. -/
structure CancelRequest where
  process_id : Nat
  secret_key : Nat
deriving DecidableEq

/-- `messages::startup::StartupRequest`. -/
inductive StartupRequest where
  | sslRequest : SSLRequest → StartupRequest
  | startup : Startup → StartupRequest
  | cancelRequest : CancelRequest → StartupRequest
deriving DecidableEq

/-- `state::Authentication` (only `Ok` is in scope). -/
inductive Authentication where
  | ok
deriving DecidableEq

/-- `state::ParameterStatus`. -/
structure ParameterStatus where
  name : List Nat
  value : List Nat
deriving DecidableEq

/-- `state::BackendKeyData`. -/
structure BackendKeyData where
  process_id : Nat
  secret_key : Nat
deriving DecidableEq

/-- `state::ReadyForQuery` (the startup-phase variant living in
`src/state.rs`, distinct from the backend operational one). -/
structure StateReadyForQuery where
  transaction_status : TransactionStatus
deriving DecidableEq

/-- `messages::startup::StartupResponse`. -/
inductive StartupResponse where
  | authentication : Authentication → StartupResponse
  | parameterStatus : ParameterStatus → StartupResponse
  | backendKeyData : BackendKeyData → StartupResponse
  | readyForQuery : StateReadyForQuery → StartupResponse
deriving DecidableEq

/-- `messages::ssl::SSLResponse`. -/
inductive SSLResponse where
  | s
  | n
deriving DecidableEq

/-! ## Encoders (`impl Message for ...`, `fn encode`) -/

/-- `SimpleQuery::encode`: `Q | len | query | NUL`. -/
def SimpleQuery.encode (q : SimpleQuery) : List Nat :=
  81 :: be32 (q.query.length + 4 + 1) ++ q.query ++ [0]

/-- `Termination::encode`: `X | 4`. -/
def Termination.encode (_ : Termination) : List Nat :=
  88 :: be32 4

/-- `FrontendMessage::encode`. -/
def FrontendMessage.encode : FrontendMessage → List Nat
  | .simpleQuery q => q.encode
  | .termination t => t.encode

/-- `ReadyForQuery::encode` (backend): `Z | 5 | status`; panics on
`Unknown` via `to_u8`. -/
def ReadyForQuery.encode (m : ReadyForQuery) : PR (List Nat) :=
  match m.transaction_status.to_u8 with
  | .ok b => .ok (90 :: be32 5 ++ [b])
  | .panicked msg => .panicked msg

/-- One field record of `RowDescription::encode`:
`name NUL | u32 | u16 | u32 | u16 | u32 | u16`. -/
def RDField.encode (f : RDField) : List Nat :=
  f.name ++ [0] ++ be32 f.table_oid ++ be16 f.column_index ++
  be32 f.data_type_oid ++ be16 f.data_type_size ++
  be32 f.type_modifier ++ be16 f.format_code

/-- The concatenated field records (`field_buffer`). -/
def encodeFieldList : List RDField → List Nat
  | [] => []
  | f :: fs => f.encode ++ encodeFieldList fs

/-- `RowDescription::encode`: `T | len | count | fields`. -/
def RowDescription.encode (m : RowDescription) : List Nat :=
  84 :: be32 ((encodeFieldList m.fields).length + 4 + 2) ++
  be16 m.fields.length ++ encodeFieldList m.fields

/-- The concatenated field entries of `DataRow::encode`
(`0xFFFFFFFF` marks NULL). -/
def encodeDataFieldList : List (Option (List Nat)) → List Nat
  | [] => []
  | some v :: fs => be32 v.length ++ v ++ encodeDataFieldList fs
  | none :: fs => [255, 255, 255, 255] ++ encodeDataFieldList fs

/-- `DataRow::encode`: `D | len | count | entries`. -/
def DataRow.encode (m : DataRow) : List Nat :=
  68 :: be32 ((encodeDataFieldList m.fields).length + 4 + 2) ++
  be16 m.fields.length ++ encodeDataFieldList m.fields

/-- `NoData::encode`: `n | 4`. -/
def NoData.encode (_ : NoData) : List Nat :=
  110 :: be32 4

/-- `EmptyQueryResponse::encode`: `I | 4`. -/
def EmptyQueryResponse.encode (_ : EmptyQueryResponse) : List Nat :=
  73 :: be32 4

/-- `CommandComplete::encode`: `C | len | tag NUL`. -/
def CommandComplete.encode (m : CommandComplete) : List Nat :=
  67 :: be32 (4 + (m.tag.length + 1)) ++ m.tag ++ [0]

/-- `BackendMessage::encode`; the `Error` arm writes the stored
`length` verbatim and no payload. -/
def BackendMessage.encode : BackendMessage → PR (List Nat)
  | .readyForQuery m => m.encode
  | .rowDescription m => .ok m.encode
  | .dataRow m => .ok m.encode
  | .noData m => .ok m.encode
  | .commandComplete m => .ok m.encode
  | .emptyQueryResponse m => .ok m.encode
  | .error length => .ok (69 :: be32 length)

/-- `Startup::default` (stored length `4 + 4 + 1`, protocol 3.0). -/
def Startup.default : Startup :=
  { length := 4 + 4 + 1
    protocol_major_version := 3
    protocol_minor_version := 0
    parameters := [] }

/-- `Startup::new`. -/
def Startup.new : Startup := Startup.default

/-- `Startup::add_parameter` (`u32` addition wraps). -/
def Startup.add_parameter (s : Startup) (key value : List Nat) : Startup :=
  { s with
    parameters := s.parameters ++ [(key, value)]
    length := (s.length + (key.length + 1) + (value.length + 1)) % 4294967296 }

/-- The `(key NUL value NUL)*` section of `Startup::encode`. -/
def encodeParams : List (List Nat × List Nat) → List Nat
  | [] => []
  | (k, v) :: ps => k ++ [0] ++ v ++ [0] ++ encodeParams ps

/-- `Startup::encode`: `stored-length | major | minor | params | NUL`. -/
def Startup.encode (s : Startup) : List Nat :=
  be32 s.length ++ be16 s.protocol_major_version ++
  be16 s.protocol_minor_version ++ encodeParams s.parameters ++ [0]

/-- `CancelRequest::encode`: `16 | 1234 | 5678 | pid | key`. -/
def CancelRequest.encode (c : CancelRequest) : List Nat :=
  be32 16 ++ be16 1234 ++ be16 5678 ++ be32 c.process_id ++ be32 c.secret_key

/-- `SSLRequest::encode`: `8 | 1234 | 5679`. -/
def SSLRequest.encode (_ : SSLRequest) : List Nat :=
  be32 8 ++ be16 1234 ++ be16 5679

/-- `StartupRequest::encode`. -/
def StartupRequest.encode : StartupRequest → List Nat
  | .sslRequest m => m.encode
  | .startup m => m.encode
  | .cancelRequest m => m.encode

/-- `Authentication::encode`: `R | 8 | 0`. -/
def Authentication.encode (_ : Authentication) : List Nat :=
  82 :: be32 8 ++ be32 0

/-- `ParameterStatus::encode`: `S | len | name NUL value NUL`. -/
def ParameterStatus.encode (p : ParameterStatus) : List Nat :=
  83 :: be32 (4 + p.name.length + 1 + p.value.length + 1) ++
  p.name ++ [0] ++ p.value ++ [0]

/-- `BackendKeyData::encode`: `K | 12 | pid | key`. -/
def BackendKeyData.encode (k : BackendKeyData) : List Nat :=
  75 :: be32 12 ++ be32 k.process_id ++ be32 k.secret_key

/-- `state::ReadyForQuery::encode`: `Z | 5 | status`; panics on
`Unknown`. -/
def StateReadyForQuery.encode (m : StateReadyForQuery) : PR (List Nat) :=
  match m.transaction_status.to_u8 with
  | .ok b => .ok (90 :: be32 5 ++ [b])
  | .panicked msg => .panicked msg

/-- `StartupResponse::encode`. -/
def StartupResponse.encode : StartupResponse → PR (List Nat)
  | .authentication m => .ok m.encode
  | .parameterStatus m => .ok m.encode
  | .backendKeyData m => .ok m.encode
  | .readyForQuery m => m.encode

/-- `SSLResponse::encode`: single byte `S` or `N`. -/
def SSLResponse.encode : SSLResponse → List Nat
  | .s => [83]
  | .n => [78]

/-! ## Decoders (`read_next_message`) -/

/-- Running a per-variant payload parser on the scratch buffer of a
frame: the buffer's own leftover is discarded and the outer stream
remainder `rest` is returned; errors and panics propagate (`?`). -/
def runBuf {α β : Type} (inner : List Nat → RR α) (buf rest : List Nat)
    (f : α → β) : RR β :=
  match inner buf with
  | .ok a _ => .ok (f a) rest
  | .err m _ => .err m rest
  | .panicked m => .panicked m

/-- `SimpleQuery::read_next_message`. -/
def SimpleQuery.read_next_message (s : List Nat) : RR SimpleQuery :=
  (read_string s).then fun q s => .ok ⟨q⟩ s

/-- `FrontendMessage::read_next_message`: 5-byte header (type byte and
`u32` length), then `length - 4` payload bytes, then dispatch on the
type byte; the `X` arm asserts `length == 4`. -/
def FrontendMessage.read_next_message (s : List Nat) : RR FrontendMessage :=
  match s with
  | t :: b0 :: b1 :: b2 :: b3 :: rest =>
    let length := ((b0 * 256 + b1) * 256 + b2) * 256 + b3
    match read_bytes (length - 4) rest with
    | .ok buf rest2 =>
      if t = 81 then
        runBuf SimpleQuery.read_next_message buf rest2 FrontendMessage.simpleQuery
      else if t = 88 then
        if length = 4 then .ok (.termination ⟨⟩) rest2
        else .panicked "assertion failed: length == 4"
      else .err "Unknown message type" rest2
    | .err m r => .err m r
    | .panicked m => .panicked m
  | _ => .err "Failed to read header" []

/-- `backend::ReadyForQuery::read_next_message`. -/
def ReadyForQuery.read_next_message (s : List Nat) : RR ReadyForQuery :=
  (read_u8 s).then fun b s =>
  match TransactionStatus.from_u8 b with
  | .ok ts => .ok ⟨ts⟩ s
  | .panicked m => .panicked m

/-- One field record of `RowDescription::read_next_message`. -/
def RDField.read (s : List Nat) : RR RDField :=
  (read_string s).then fun name s =>
  (read_u32 s).then fun table_oid s =>
  (read_u16 s).then fun column_index s =>
  (read_u32 s).then fun data_type_oid s =>
  (read_u16 s).then fun data_type_size s =>
  (read_u32 s).then fun type_modifier s =>
  (read_u16 s).then fun format_code s =>
  .ok ⟨name, table_oid, column_index, data_type_oid,
       data_type_size, type_modifier, format_code⟩ s

/-- The `for _ in 0..field_count` loop of
`RowDescription::read_next_message`. -/
def readFieldList : Nat → List Nat → RR (List RDField)
  | 0, s => .ok [] s
  | n + 1, s =>
    (RDField.read s).then fun f s =>
    (readFieldList n s).then fun fs s =>
    .ok (f :: fs) s

/-- `RowDescription::read_next_message`. -/
def RowDescription.read_next_message (s : List Nat) : RR RowDescription :=
  (read_u16 s).then fun field_count s =>
  (readFieldList field_count s).then fun fields s =>
  .ok ⟨fields⟩ s

/-- The `for index in 0..field_count` loop of
`DataRow::read_next_message`; length `0xFFFFFFFF` leaves the `None`
slot in place. -/
def readDataFieldList : Nat → List Nat → RR (List (Option (List Nat)))
  | 0, s => .ok [] s
  | n + 1, s =>
    (read_u32 s).then fun field_length s =>
    if field_length = 4294967295 then
      (readDataFieldList n s).then fun fs s => .ok (none :: fs) s
    else
      (read_bytes field_length s).then fun v s =>
      (readDataFieldList n s).then fun fs s =>
      .ok (some v :: fs) s

/-- `DataRow::read_next_message`. -/
def DataRow.read_next_message (s : List Nat) : RR DataRow :=
  (read_u16 s).then fun field_count s =>
  (readDataFieldList field_count s).then fun fields s =>
  .ok ⟨fields⟩ s

/-- `NoData::read_next_message` (reads nothing). -/
def NoData.read_next_message (s : List Nat) : RR NoData :=
  .ok ⟨⟩ s

/-- `EmptyQueryResponse::read_next_message` (reads nothing). -/
def EmptyQueryResponse.read_next_message (s : List Nat) : RR EmptyQueryResponse :=
  .ok ⟨⟩ s

/-- `CommandComplete::read_next_message`. -/
def CommandComplete.read_next_message (s : List Nat) : RR CommandComplete :=
  (read_string s).then fun tag s => .ok ⟨tag⟩ s

/-- `BackendMessage::read_next_message`
(`src/messages/backend/mod.rs`): 5-byte header, `length - 4` bytes
into the scratch buffer, dispatch on the type byte.  The `E` arm reads
a further `length - 4` bytes from the stream (not from the scratch
buffer) exactly as the source does. -/
def BackendMessage.read_next_message (s : List Nat) : RR BackendMessage :=
  match s with
  | t :: b0 :: b1 :: b2 :: b3 :: rest =>
    let length := ((b0 * 256 + b1) * 256 + b2) * 256 + b3
    match read_bytes (length - 4) rest with
    | .ok buf rest2 =>
      if t = 90 then
        runBuf ReadyForQuery.read_next_message buf rest2 .readyForQuery
      else if t = 84 then
        runBuf RowDescription.read_next_message buf rest2 .rowDescription
      else if t = 68 then
        runBuf DataRow.read_next_message buf rest2 .dataRow
      else if t = 110 then
        runBuf NoData.read_next_message buf rest2 .noData
      else if t = 67 then
        runBuf CommandComplete.read_next_message buf rest2 .commandComplete
      else if t = 73 then
        runBuf EmptyQueryResponse.read_next_message buf rest2 .emptyQueryResponse
      else if t = 69 then
        match read_bytes (length - 4) rest2 with
        | .ok _ rest3 => .ok (.error length) rest3
        | .err m r => .err m r
        | .panicked m => .panicked m
      else .err "unhandled message type" rest2
    | .err m r => .err m r
    | .panicked m => .panicked m
  | _ => .err "expected 5 bytes for message type" []

theorem read_string_length {s v r : List Nat} (h : read_string s = .ok v r) :
    r.length < s.length := by
  induction s generalizing v r with
  | nil => simp [read_string] at h
  | cons b rest ih =>
    by_cases hb : b = 0
    · simp [read_string, hb] at h
      simp [h.2.symm]
    · simp only [read_string, if_neg hb] at h
      cases hr : read_string rest with
      | ok v' r' =>
        rw [hr] at h
        cases h
        have := ih hr
        simp only [List.length_cons]
        omega
      | err m r' => rw [hr] at h; cases h
      | panicked m => rw [hr] at h; cases h

/-- The body of the key/value loop shared by
`StartupRequest::read_next_message` and `Startup::read_next_message`:
read a key, stop on the empty-key sentinel, otherwise read a value and
`add_parameter`.  The recursion is bounded by an explicit fuel so that
it reduces computationally; the cursor advances on every iteration, so
fuel `s.length + 1` (as supplied by `parseParams`) is never exhausted
(`parseParamsFuel_sufficient`). -/
def parseParamsFuel : Nat → Startup → List Nat → RR Startup
  | 0, _, _ => .panicked "out of fuel"
  | fuel + 1, st, s =>
    match read_string s with
    | .err m r => .err m r
    | .panicked m => .panicked m
    | .ok key s1 =>
      if key = [] then .ok st s1
      else
        match read_string s1 with
        | .err m r => .err m r
        | .panicked m => .panicked m
        | .ok value s2 => parseParamsFuel fuel (st.add_parameter key value) s2

/-- The key/value parameter loop, at its never-exhausted fuel bound. -/
def parseParams (st : Startup) (s : List Nat) : RR Startup :=
  parseParamsFuel (s.length + 1) st s

theorem parseParamsFuel_sufficient (fuel fuel' : Nat) (st : Startup)
    (s : List Nat) (h : s.length < fuel) (h' : s.length < fuel') :
    parseParamsFuel fuel st s = parseParamsFuel fuel' st s := by
  induction fuel generalizing fuel' st s with
  | zero => omega
  | succ n ih =>
    cases fuel' with
    | zero => omega
    | succ n' =>
      simp only [parseParamsFuel]
      cases hr : read_string s with
      | ok key s1 =>
        by_cases hk : key = []
        · simp [hk]
        · simp only [if_neg hk]
          cases hr2 : read_string s1 with
          | ok value s2 =>
            have l1 := read_string_length hr
            have l2 := read_string_length hr2
            exact ih _ _ _ (by omega) (by omega)
          | err m r => rfl
          | panicked m => rfl
      | err m r => rfl
      | panicked m => rfl

/-- `StartupRequest::read_next_message`: `u32` length, `u16` major and
minor versions, `length - 8` bytes into the scratch buffer, then
dispatch on the `(length, major, minor)` triple; an unsupported triple
panics. -/
def StartupRequest.read_next_message (s : List Nat) : RR StartupRequest :=
  (read_u32 s).then fun length s =>
  (read_u16 s).then fun protocol_major_version s =>
  (read_u16 s).then fun protocol_minor_version s =>
  (read_bytes (length - 8) s).then fun buf s =>
  if length = 8 ∧ protocol_major_version = 1234 ∧ protocol_minor_version = 5679 then
    .ok (.sslRequest ⟨⟩) s
  else if length = 16 ∧ protocol_major_version = 1234 ∧ protocol_minor_version = 5678 then
    runBuf (fun b =>
      (read_u32 b).then fun process_id b =>
      (read_u32 b).then fun secret_key b =>
      .ok (⟨process_id, secret_key⟩ : CancelRequest) b) buf s .cancelRequest
  else if protocol_major_version = 3 ∧ protocol_minor_version = 0 then
    runBuf (parseParams Startup.new) buf s .startup
  else
    .panicked "Unsupported protocol version"

/-- `Startup::read_next_message` (used by the frontend role's startup
sequence): asserts protocol 3.0, then parses parameters from the
scratch buffer. -/
def Startup.read_next_message (s : List Nat) : RR Startup :=
  (read_u32 s).then fun length s =>
  (read_u16 s).then fun protocol_major_version s =>
  (read_u16 s).then fun protocol_minor_version s =>
  if protocol_major_version = 3 then
    if protocol_minor_version = 0 then
      (read_bytes (length - 8) s).then fun buf s =>
      runBuf (parseParams Startup.new) buf s id
    else .panicked "assertion failed: protocol_minor_version == 0"
  else .panicked "assertion failed: protocol_major_version == 3"

/-- `Authentication::read_next_message`: `u32` auth code, only `0` is
accepted. -/
def Authentication.read_next_message (s : List Nat) : RR Authentication :=
  (read_u32 s).then fun authentication_type s =>
  if authentication_type = 0 then RR.ok Authentication.ok s
  else .err "Unsupported authentication type" s

/-- `ParameterStatus::read_next_message`. -/
def ParameterStatus.read_next_message (s : List Nat) : RR ParameterStatus :=
  (read_string s).then fun name s =>
  (read_string s).then fun value s =>
  .ok ⟨name, value⟩ s

/-- `BackendKeyData::read_next_message`. -/
def BackendKeyData.read_next_message (s : List Nat) : RR BackendKeyData :=
  (read_u32 s).then fun process_id s =>
  (read_u32 s).then fun secret_key s =>
  .ok ⟨process_id, secret_key⟩ s

/-- `state::ReadyForQuery::read_next_message`. -/
def StateReadyForQuery.read_next_message (s : List Nat) : RR StateReadyForQuery :=
  (read_u8 s).then fun b s =>
  match TransactionStatus.from_u8 b with
  | .ok ts => .ok ⟨ts⟩ s
  | .panicked m => .panicked m

/-- Synchronous `StartupResponse::read_next_message`: type byte, `u32`
length, `length - 4` scratch bytes, dispatch on `R`/`S`/`K`/`Z`; an
unrecognised type byte is logged and yields a successful `none`. -/
def StartupResponse.read_next_message (s : List Nat) : RR (Option StartupResponse) :=
  (read_u8 s).then fun t s =>
  (read_u32 s).then fun length s =>
  (read_bytes (length - 4) s).then fun buf s =>
  if t = 82 then
    runBuf Authentication.read_next_message buf s (fun a => some (.authentication a))
  else if t = 83 then
    runBuf ParameterStatus.read_next_message buf s (fun a => some (.parameterStatus a))
  else if t = 75 then
    runBuf BackendKeyData.read_next_message buf s (fun a => some (.backendKeyData a))
  else if t = 90 then
    runBuf StateReadyForQuery.read_next_message buf s (fun a => some (.readyForQuery a))
  else .ok none s

/-- Asynchronous `StartupResponse::read_next_message_async`: identical
framing, but an unrecognised type byte returns an `Err`. -/
def StartupResponse.read_next_message_async (s : List Nat) : RR (Option StartupResponse) :=
  (read_u8 s).then fun t s =>
  (read_u32 s).then fun length s =>
  (read_bytes (length - 4) s).then fun buf s =>
  if t = 82 then
    runBuf Authentication.read_next_message buf s (fun a => some (.authentication a))
  else if t = 83 then
    runBuf ParameterStatus.read_next_message buf s (fun a => some (.parameterStatus a))
  else if t = 75 then
    runBuf BackendKeyData.read_next_message buf s (fun a => some (.backendKeyData a))
  else if t = 90 then
    runBuf StateReadyForQuery.read_next_message buf s (fun a => some (.readyForQuery a))
  else .err "unsupported message type" s

/-- `SSLResponse::read_next_message`. -/
def SSLResponse.read_next_message (s : List Nat) : RR SSLResponse :=
  (read_u8 s).then fun b s =>
  if b = 83 then .ok .s s
  else if b = 78 then .ok .n s
  else .err "Unknown ssl response type" s

/-- `SSLRequest::read_next_message`: `u32` length, `length - 4`
scratch bytes, asserts the `1234`/`5679` constants. -/
def SSLRequest.read_next_message (s : List Nat) : RR SSLRequest :=
  (read_u32 s).then fun length s =>
  (read_bytes (length - 4) s).then fun buf s =>
  runBuf (fun b =>
    (read_u16 b).then fun protocol_major_version b =>
    (read_u16 b).then fun protocol_minor_version b =>
    if protocol_major_version = 1234 then
      if protocol_minor_version = 5679 then .ok (⟨⟩ : SSLRequest) b
      else .panicked "assertion failed: protocol_minor_version == 5679"
    else .panicked "assertion failed: protocol_major_version == 1234") buf s id

/-! ## Message-sequence adapters (`src/frontend.rs`, `src/backend/sync.rs`, `src/backend/async.rs`)

Each lazy sequence is a cursor over the stream together with the
`finished` flag of the source's `MessageIterator` structs; one pull is
one `next()` / one `poll()` to readiness. -/

/-- State of a pullable message sequence: the not-yet-consumed stream
and the `finished` flag. -/
structure IterSt where
  stream : List Nat
  finished : Bool
deriving DecidableEq

/-- Result of one blocking pull: either `next()` returns (an optional
message and the successor state), or the decode panicked and the pull
unwinds. -/
inductive Step (α : Type) where
  | yields : Option α → IterSt → Step α
  | panics : String → Step α
deriving DecidableEq

/-- Result of one cooperative pull (`poll` to readiness): the
`Result<Option<_>, _>` surfaced to the caller plus the successor
state, or an unwinding panic.  (`Poll::Pending` cannot occur on the
pure byte-list stream.) -/
inductive AStep (α : Type) where
  | ready : Except String (Option α) → IterSt → AStep α
  | panics : String → AStep α

/-- One pull of the frontend operational sequence
(`frontend.rs` module-level `MessageIterator for FrontendMessage`):
`Termination` sets the flag; a decode error is printed and surfaced as
`None` without setting the flag. -/
def frontendNext (st : IterSt) : Step FrontendMessage :=
  if st.finished then .yields none st
  else
    match FrontendMessage.read_next_message st.stream with
    | .ok m rest =>
      match m with
      | .termination t => .yields (some (.termination t)) ⟨rest, true⟩
      | m => .yields (some m) ⟨rest, false⟩
    | .err _ rest => .yields none ⟨rest, false⟩
    | .panicked msg => .panics msg

/-- One pull of the blocking backend startup sequence
(`Backend::read_startup_messages` in `backend/sync.rs`):
`ReadyForQuery` sets the flag; `Ok(None)` and errors surface as `None`
without setting it. -/
def backendStartupNext (st : IterSt) : Step StartupResponse :=
  if st.finished then .yields none st
  else
    match StartupResponse.read_next_message st.stream with
    | .ok (some m) rest =>
      match m with
      | .readyForQuery r => .yields (some (.readyForQuery r)) ⟨rest, true⟩
      | m => .yields (some m) ⟨rest, false⟩
    | .ok none rest => .yields none ⟨rest, false⟩
    | .err _ rest => .yields none ⟨rest, false⟩
    | .panicked msg => .panics msg

/-- One pull of the blocking backend operational sequence
(`Backend::read_messages` in `backend/sync.rs`): `ReadyForQuery` sets
the flag; errors surface as `None` without setting it. -/
def backendOpNext (st : IterSt) : Step BackendMessage :=
  if st.finished then .yields none st
  else
    match BackendMessage.read_next_message st.stream with
    | .ok m rest =>
      match m with
      | .readyForQuery r => .yields (some (.readyForQuery r)) ⟨rest, true⟩
      | m => .yields (some m) ⟨rest, false⟩
    | .err _ rest => .yields none ⟨rest, false⟩
    | .panicked msg => .panics msg

/-- Modelled from the spec: `BackendMessage::read_next_message_async`
is called by the asynchronous adapter (`backend/async.rs`) but its
definition is not among the sources; per §4.1/§4.2 the cooperative
readers differ from the blocking ones only in where they yield, so it
is the synchronous decoder. -/
def BackendMessage.read_next_message_async (s : List Nat) : RR BackendMessage :=
  BackendMessage.read_next_message s

/-- One pull of the cooperative backend startup sequence
(`NextStartupResponse::poll` in `backend/async.rs`): `ReadyForQuery`,
`Ok(None)` and errors all set the flag, and errors are returned to the
caller. -/
def asyncBackendStartupNext (st : IterSt) : AStep StartupResponse :=
  if st.finished then .ready (.ok none) st
  else
    match StartupResponse.read_next_message_async st.stream with
    | .ok (some m) rest =>
      match m with
      | .readyForQuery r => .ready (.ok (some (.readyForQuery r))) ⟨rest, true⟩
      | m => .ready (.ok (some m)) ⟨rest, false⟩
    | .ok none rest => .ready (.ok none) ⟨rest, true⟩
    | .err e rest => .ready (.error e) ⟨rest, true⟩
    | .panicked msg => .panics msg

/-- One pull of the cooperative backend operational sequence
(`NextBackendMessage::poll` in `backend/async.rs`): `ReadyForQuery`
and errors set the flag, and errors are returned to the caller. -/
def asyncBackendOpNext (st : IterSt) : AStep BackendMessage :=
  if st.finished then .ready (.ok none) st
  else
    match BackendMessage.read_next_message_async st.stream with
    | .ok m rest =>
      match m with
      | .readyForQuery r => .ready (.ok (some (.readyForQuery r))) ⟨rest, true⟩
      | m => .ready (.ok (some m)) ⟨rest, false⟩
    | .err e rest => .ready (.error e) ⟨rest, true⟩
    | .panicked msg => .panics msg

/-! ## Basic lemmas about the readers -/

@[simp] theorem RR.then_ok {α β : Type} (a : α) (s : List Nat)
    (f : α → List Nat → RR β) : (RR.ok a s).then f = f a s := rfl

@[simp] theorem RR.then_err {α β : Type} (m : String) (r : List Nat)
    (f : α → List Nat → RR β) : (RR.err m r).then f = .err m r := rfl

@[simp] theorem RR.then_panicked {α β : Type} (m : String)
    (f : α → List Nat → RR β) : (RR.panicked m).then f = .panicked m := rfl

@[simp] theorem read_u8_cons (b : Nat) (s : List Nat) :
    read_u8 (b :: s) = .ok b s := rfl

@[simp] theorem be16_length (n : Nat) : (be16 n).length = 2 := rfl

@[simp] theorem be32_length (n : Nat) : (be32 n).length = 4 := rfl

theorem be32_bytes (n : Nat) :
    ((n / 16777216 % 256 * 256 + n / 65536 % 256) * 256 + n / 256 % 256) * 256
      + n % 256 = n % 4294967296 := by
  omega

theorem be16_bytes (n : Nat) : n / 256 % 256 * 256 + n % 256 = n % 65536 := by
  omega

@[simp] theorem read_u16_be (n : Nat) (s : List Nat) :
    read_u16 (be16 n ++ s) = .ok (n % 65536) s := by
  simp [read_u16, be16, be16_bytes]

@[simp] theorem read_u32_be (n : Nat) (s : List Nat) :
    read_u32 (be32 n ++ s) = .ok (n % 4294967296) s := by
  simp only [be32, List.cons_append, List.nil_append, read_u32, be32_bytes]

@[simp] theorem read_bytes_exact (l s : List Nat) :
    read_bytes l.length (l ++ s) = .ok l s := by
  simp [read_bytes, List.take_left, List.drop_left]

theorem read_bytes_of_length {n : Nat} (l s : List Nat) (h : n = l.length) :
    read_bytes n (l ++ s) = .ok l s := by
  subst h; exact read_bytes_exact l s

@[simp] theorem read_string_nul_free (q : List Nat) (rest : List Nat)
    (h : 0 ∉ q) : read_string (q ++ 0 :: rest) = .ok q rest := by
  induction q with
  | nil => simp [read_string]
  | cons b bs ih =>
    have hb : b ≠ 0 := fun hb => h (by simp [hb])
    have hbs : 0 ∉ bs := fun hm => h (by simp [hm])
    simp [read_string, hb, ih hbs]

theorem read_string_truncates (q : List Nat) (rest : List Nat) :
    ∃ r, read_string (q ++ 0 :: rest) = .ok (q.takeWhile (· ≠ 0)) r := by
  induction q with
  | nil => exact ⟨rest, by simp [read_string]⟩
  | cons b bs ih =>
    by_cases hb : b = 0
    · subst hb
      exact ⟨bs ++ 0 :: rest, by simp [read_string, List.takeWhile]⟩
    · obtain ⟨r, hr⟩ := ih
      refine ⟨r, ?_⟩
      simp [read_string, hb, hr, List.takeWhile]

@[simp] theorem runBuf_def {α β : Type} (inner : List Nat → RR α)
    (buf rest : List Nat) (f : α → β) :
    runBuf inner buf rest f =
      match inner buf with
      | .ok a _ => .ok (f a) rest
      | .err m _ => .err m rest
      | .panicked m => .panicked m := rfl

/-! ## Well-formedness

The side conditions under which the Rust values are faithfully
representable on the wire: strings are NUL-free where the wire format
delimits them by NUL, counts fit in the `u16` count slots, payload
sizes fit in the `u32` length slots, and transaction statuses are the
three encodable ones. -/

/-- Well-formed `SimpleQuery`: NUL-free text whose frame length fits a
`u32`. -/
def SimpleQuery.WF (q : SimpleQuery) : Prop :=
  0 ∉ q.query ∧ q.query.length + 5 < 4294967296

/-- Well-formed `FrontendMessage`. -/
def FrontendMessage.WF : FrontendMessage → Prop
  | .simpleQuery q => q.WF
  | .termination _ => True

/-- Well-formed `CommandComplete`: NUL-free tag fitting the frame. -/
def CommandComplete.WF (m : CommandComplete) : Prop :=
  0 ∉ m.tag ∧ m.tag.length + 5 < 4294967296

/-- Well-formed row-description field: NUL-free name, numeric fields
within their wire widths. -/
def RDField.WF (f : RDField) : Prop :=
  0 ∉ f.name ∧ f.table_oid < 4294967296 ∧ f.column_index < 65536 ∧
  f.data_type_oid < 4294967296 ∧ f.data_type_size < 65536 ∧
  f.type_modifier < 4294967296 ∧ f.format_code < 65536

/-- Well-formed `RowDescription`: well-formed fields, count fitting a
`u16`, payload fitting the `u32` length slot. -/
def RowDescription.WF (m : RowDescription) : Prop :=
  (∀ f ∈ m.fields, f.WF) ∧ m.fields.length < 65536 ∧
  (encodeFieldList m.fields).length + 6 < 4294967296

/-- Well-formed `DataRow`: field values shorter than the
`0xFFFFFFFF` NULL marker, count fitting a `u16`, payload fitting the
`u32` length slot. -/
def DataRow.WF (m : DataRow) : Prop :=
  (∀ o ∈ m.fields, (o.getD []).length < 4294967295) ∧
  m.fields.length < 65536 ∧
  (encodeDataFieldList m.fields).length + 6 < 4294967296

/-- Well-formed backend `ReadyForQuery`: an encodable status. -/
def ReadyForQuery.WF (r : ReadyForQuery) : Prop :=
  r.transaction_status ≠ .unknown

/-- Well-formed `BackendMessage`.  `Error` is excluded: its encoding
does not round-trip (see the theorems for C1–C3). -/
def BackendMessage.WF : BackendMessage → Prop
  | .readyForQuery r => r.WF
  | .rowDescription m => m.WF
  | .dataRow m => m.WF
  | .noData _ => True
  | .commandComplete m => m.WF
  | .emptyQueryResponse _ => True
  | .error _ => False

/-- The encoded size of the parameter section (2 extra NUL bytes per
pair). -/
def paramsSize : List (List Nat × List Nat) → Nat
  | [] => 0
  | (k, v) :: ps => k.length + v.length + 2 + paramsSize ps

/-- Well-formed `Startup`: protocol 3.0, a consistent stored length
that fits a `u32`, and non-empty NUL-free keys with NUL-free values. -/
def Startup.WF (s : Startup) : Prop :=
  s.protocol_major_version = 3 ∧ s.protocol_minor_version = 0 ∧
  s.length = 9 + paramsSize s.parameters ∧
  9 + paramsSize s.parameters < 4294967296 ∧
  ∀ kv ∈ s.parameters, kv.1 ≠ [] ∧ 0 ∉ kv.1 ∧ 0 ∉ kv.2

/-- Well-formed `CancelRequest`: both fields fit a `u32`. -/
def CancelRequest.WF (c : CancelRequest) : Prop :=
  c.process_id < 4294967296 ∧ c.secret_key < 4294967296

/-- Well-formed `StartupRequest`. -/
def StartupRequest.WF : StartupRequest → Prop
  | .sslRequest _ => True
  | .startup s => s.WF
  | .cancelRequest c => c.WF

/-- Well-formed `ParameterStatus`: NUL-free name and value fitting the
frame. -/
def ParameterStatus.WF (p : ParameterStatus) : Prop :=
  0 ∉ p.name ∧ 0 ∉ p.value ∧ p.name.length + p.value.length + 6 < 4294967296

/-- Well-formed `BackendKeyData`: both fields fit a `u32`. -/
def BackendKeyData.WF (k : BackendKeyData) : Prop :=
  k.process_id < 4294967296 ∧ k.secret_key < 4294967296

/-- Well-formed `StartupResponse`. -/
def StartupResponse.WF : StartupResponse → Prop
  | .authentication _ => True
  | .parameterStatus p => p.WF
  | .backendKeyData k => k.WF
  | .readyForQuery r => r.transaction_status ≠ .unknown

/-- Encode-then-decode for a `BackendMessage`; a panic during encoding
propagates. -/
def decodeEncodedB (m : BackendMessage) : RR BackendMessage :=
  match m.encode with
  | .ok bs => BackendMessage.read_next_message bs
  | .panicked msg => .panicked msg

/-- Encode-then-decode for a `StartupResponse`; a panic during
encoding propagates. -/
def decodeEncodedSR (m : StartupResponse) : RR (Option StartupResponse) :=
  match m.encode with
  | .ok bs => StartupResponse.read_next_message bs
  | .panicked msg => .panicked msg

/-- The `u32` stored big-endian at byte offset `off` of a buffer
(missing bytes read as zero). -/
def u32At (bs : List Nat) (off : Nat) : Nat :=
  ((bs.getD off 0 * 256 + bs.getD (off + 1) 0) * 256 + bs.getD (off + 2) 0) * 256
    + bs.getD (off + 3) 0

theorem u32At_cons_be32 (t n : Nat) (rest : List Nat) :
    u32At (t :: be32 n ++ rest) 1 = n % 4294967296 := by
  simp [u32At, be32, be32_bytes]

theorem u32At_be32 (n : Nat) (rest : List Nat) :
    u32At (be32 n ++ rest) 0 = n % 4294967296 := by
  simp [u32At, be32, be32_bytes]

/-! ## Frame-decoding lemmas

Decoding a single well-formed frame: type byte, big-endian `u32`
length, exactly `length - 4` payload bytes (for `StartupRequest`: no
type byte, length at offset 0, `length - 8` bytes after the version
words). -/

theorem read_bytes_all {n : Nat} (l : List Nat) (h : n = l.length) :
    read_bytes n l = .ok l [] := by
  subst h; simp [read_bytes]

theorem BackendMessage.decode_frame_b (t L : Nat) (payload : List Nat)
    (hmod : L < 4294967296) (_h4 : 4 ≤ L) (hlen : payload.length = L - 4) :
    BackendMessage.read_next_message (t :: be32 L ++ payload) =
      if t = 90 then runBuf ReadyForQuery.read_next_message payload [] .readyForQuery
      else if t = 84 then runBuf RowDescription.read_next_message payload [] .rowDescription
      else if t = 68 then runBuf DataRow.read_next_message payload [] .dataRow
      else if t = 110 then runBuf NoData.read_next_message payload [] .noData
      else if t = 67 then runBuf CommandComplete.read_next_message payload [] .commandComplete
      else if t = 73 then runBuf EmptyQueryResponse.read_next_message payload [] .emptyQueryResponse
      else if t = 69 then
        (match read_bytes (L - 4) ([] : List Nat) with
         | .ok _ rest3 => .ok (.error L) rest3
         | .err m r => .err m r
         | .panicked m => .panicked m)
      else .err "unhandled message type" []
    := by
  simp only [be32, List.cons_append, List.nil_append, BackendMessage.read_next_message]
  rw [be32_bytes, Nat.mod_eq_of_lt hmod, read_bytes_all payload hlen.symm]

theorem FrontendMessage.decode_frame_f (t L : Nat) (payload : List Nat)
    (hmod : L < 4294967296) (_h4 : 4 ≤ L) (hlen : payload.length = L - 4) :
    FrontendMessage.read_next_message (t :: be32 L ++ payload) =
      if t = 81 then runBuf SimpleQuery.read_next_message payload [] FrontendMessage.simpleQuery
      else if t = 88 then
        (if L = 4 then .ok (.termination ⟨⟩) []
         else .panicked "assertion failed: length == 4")
      else .err "Unknown message type" []
    := by
  simp only [be32, List.cons_append, List.nil_append, FrontendMessage.read_next_message]
  rw [be32_bytes, Nat.mod_eq_of_lt hmod, read_bytes_all payload hlen.symm]

theorem StartupResponse.decode_frame_s (t L : Nat) (payload : List Nat)
    (hmod : L < 4294967296) (_h4 : 4 ≤ L) (hlen : payload.length = L - 4) :
    StartupResponse.read_next_message (t :: be32 L ++ payload) =
      if t = 82 then runBuf Authentication.read_next_message payload [] (fun a => some (.authentication a))
      else if t = 83 then runBuf ParameterStatus.read_next_message payload [] (fun a => some (.parameterStatus a))
      else if t = 75 then runBuf BackendKeyData.read_next_message payload [] (fun a => some (.backendKeyData a))
      else if t = 90 then runBuf StateReadyForQuery.read_next_message payload [] (fun a => some (.readyForQuery a))
      else .ok none []
    := by
  simp only [be32, List.cons_append, List.nil_append, StartupResponse.read_next_message,
    read_u8_cons, RR.then_ok, read_u32]
  rw [be32_bytes, Nat.mod_eq_of_lt hmod, read_bytes_all payload hlen.symm]
  rfl

theorem StartupResponse.decode_frame_s_async (t L : Nat) (payload : List Nat)
    (hmod : L < 4294967296) (_h4 : 4 ≤ L) (hlen : payload.length = L - 4) :
    StartupResponse.read_next_message_async (t :: be32 L ++ payload) =
      if t = 82 then runBuf Authentication.read_next_message payload [] (fun a => some (.authentication a))
      else if t = 83 then runBuf ParameterStatus.read_next_message payload [] (fun a => some (.parameterStatus a))
      else if t = 75 then runBuf BackendKeyData.read_next_message payload [] (fun a => some (.backendKeyData a))
      else if t = 90 then runBuf StateReadyForQuery.read_next_message payload [] (fun a => some (.readyForQuery a))
      else .err "unsupported message type" []
    := by
  simp only [be32, List.cons_append, List.nil_append, StartupResponse.read_next_message_async,
    read_u8_cons, RR.then_ok, read_u32]
  rw [be32_bytes, Nat.mod_eq_of_lt hmod, read_bytes_all payload hlen.symm]
  rfl

theorem StartupRequest.decode_frame_r (L mj mn : Nat) (payload : List Nat)
    (hmod : L < 4294967296) (hmj : mj < 65536) (hmn : mn < 65536)
    (_h8 : 8 ≤ L) (hlen : payload.length = L - 8) :
    StartupRequest.read_next_message (be32 L ++ be16 mj ++ be16 mn ++ payload) =
      if L = 8 ∧ mj = 1234 ∧ mn = 5679 then .ok (.sslRequest ⟨⟩) []
      else if L = 16 ∧ mj = 1234 ∧ mn = 5678 then
        runBuf (fun b =>
          (read_u32 b).then fun process_id b =>
          (read_u32 b).then fun secret_key b =>
          .ok (⟨process_id, secret_key⟩ : CancelRequest) b) payload [] .cancelRequest
      else if mj = 3 ∧ mn = 0 then
        runBuf (parseParams Startup.new) payload [] .startup
      else .panicked "Unsupported protocol version"
    := by
  simp only [StartupRequest.read_next_message, List.append_assoc, read_u32_be,
    RR.then_ok, read_u16_be, Nat.mod_eq_of_lt hmod, Nat.mod_eq_of_lt hmj,
    Nat.mod_eq_of_lt hmn]
  rw [read_bytes_all payload hlen.symm]
  simp only [RR.then_ok]

/-! ## Round-trip lemmas, simple variants -/

@[simp] theorem read_u32_be_nil (n : Nat) :
    read_u32 (be32 n) = .ok (n % 4294967296) [] := by
  simpa using read_u32_be n []

theorem CommandComplete.decode_encode_cc (tag : List Nat) (h0 : 0 ∉ tag)
    (hlen : tag.length + 5 < 4294967296) :
    BackendMessage.read_next_message ((CommandComplete.mk tag).encode)
      = .ok (.commandComplete ⟨tag⟩) [] := by
  have he : (CommandComplete.mk tag).encode
      = 67 :: be32 (4 + (tag.length + 1)) ++ (tag ++ [0]) := by
    simp [CommandComplete.encode]
  rw [he, BackendMessage.decode_frame_b 67 _ _ (by omega) (by omega)
    (by simp <;> omega)]
  simp [runBuf, CommandComplete.read_next_message, read_string_nul_free tag [] h0]

theorem SimpleQuery.decode_encode_sq (q : List Nat)
    (hlen : q.length + 5 < 4294967296) :
    FrontendMessage.read_next_message ((SimpleQuery.mk q).encode)
      = .ok (.simpleQuery ⟨q.takeWhile (· ≠ 0)⟩) [] := by
  have he : (SimpleQuery.mk q).encode
      = 81 :: be32 (q.length + 4 + 1) ++ (q ++ [0]) := by
    simp [SimpleQuery.encode]
  rw [he, FrontendMessage.decode_frame_f 81 _ _ (by omega) (by omega)
    (by simp <;> omega)]
  obtain ⟨r, hr⟩ := read_string_truncates q []
  simp [runBuf, SimpleQuery.read_next_message, hr]

theorem ParameterStatus.decode_encode_ps (name value : List Nat)
    (hn : 0 ∉ name) (hv : 0 ∉ value)
    (hlen : name.length + value.length + 6 < 4294967296) :
    StartupResponse.read_next_message ((ParameterStatus.mk name value).encode)
      = .ok (some (.parameterStatus ⟨name, value⟩)) [] := by
  have he : (ParameterStatus.mk name value).encode
      = 83 :: be32 (4 + name.length + 1 + value.length + 1)
          ++ (name ++ 0 :: (value ++ [0])) := by
    simp [ParameterStatus.encode]
  rw [he, StartupResponse.decode_frame_s 83 _ _ (by omega) (by omega)
    (by simp <;> omega)]
  simp [runBuf, ParameterStatus.read_next_message,
    read_string_nul_free name (value ++ [0]) hn,
    read_string_nul_free value [] hv]

theorem BackendKeyData.decode_encode_bkd (pid key : Nat)
    (hp : pid < 4294967296) (hk : key < 4294967296) :
    StartupResponse.read_next_message ((BackendKeyData.mk pid key).encode)
      = .ok (some (.backendKeyData ⟨pid, key⟩)) [] := by
  have he : (BackendKeyData.mk pid key).encode
      = 75 :: be32 12 ++ (be32 pid ++ be32 key) := by
    simp [BackendKeyData.encode]
  rw [he, StartupResponse.decode_frame_s 75 _ _ (by omega) (by omega) (by simp <;> omega)]
  simp [runBuf, BackendKeyData.read_next_message, Nat.mod_eq_of_lt hp,
    Nat.mod_eq_of_lt hk]

theorem CancelRequest.decode_encode_cr (pid key : Nat)
    (hp : pid < 4294967296) (hk : key < 4294967296) :
    StartupRequest.read_next_message ((CancelRequest.mk pid key).encode)
      = .ok (.cancelRequest ⟨pid, key⟩) [] := by
  have he : (CancelRequest.mk pid key).encode
      = be32 16 ++ be16 1234 ++ be16 5678 ++ (be32 pid ++ be32 key) := by
    simp [CancelRequest.encode]
  rw [he, StartupRequest.decode_frame_r 16 1234 5678 _ (by omega) (by omega)
    (by omega) (by omega) (by simp <;> omega)]
  simp [runBuf, Nat.mod_eq_of_lt hp, Nat.mod_eq_of_lt hk]

/-! ## Round-trip lemmas, list-valued variants -/

theorem RDField.read_encode (f : RDField) (h : f.WF) (s : List Nat) :
    RDField.read (f.encode ++ s) = .ok f s := by
  obtain ⟨h0, h1, h2, h3, h4, h5, h6⟩ := h
  simp only [RDField.encode, RDField.read, List.append_assoc, List.cons_append,
    List.nil_append]
  rw [read_string_nul_free _ _ h0]
  simp only [RR.then_ok, read_u32_be, read_u16_be, Nat.mod_eq_of_lt h1,
    Nat.mod_eq_of_lt h2, Nat.mod_eq_of_lt h3, Nat.mod_eq_of_lt h4,
    Nat.mod_eq_of_lt h5, Nat.mod_eq_of_lt h6]

theorem readFieldList_encode (fs : List RDField) (h : ∀ f ∈ fs, f.WF)
    (s : List Nat) :
    readFieldList fs.length (encodeFieldList fs ++ s) = .ok fs s := by
  induction fs with
  | nil => simp [readFieldList, encodeFieldList]
  | cons f fs ih =>
    have hf := h f (by simp)
    have ih' := ih (fun g hg => h g (List.mem_cons_of_mem f hg)) 
    simp only [List.length_cons, readFieldList, encodeFieldList, List.append_assoc]
    rw [RDField.read_encode f hf, RR.then_ok, ih', RR.then_ok]

theorem RowDescription.decode_encode_rd (m : RowDescription) (h : m.WF) :
    BackendMessage.read_next_message m.encode = .ok (.rowDescription m) [] := by
  obtain ⟨hf, hc, hlen⟩ := h
  have he : m.encode
      = 84 :: be32 ((encodeFieldList m.fields).length + 4 + 2)
          ++ (be16 m.fields.length ++ encodeFieldList m.fields) := by
    simp [RowDescription.encode]
  rw [he, BackendMessage.decode_frame_b 84 _ _ (by omega) (by omega)
    (by simp <;> omega)]
  simp only [runBuf, RowDescription.read_next_message, read_u16_be,
    Nat.mod_eq_of_lt hc, RR.then_ok]
  rw [show encodeFieldList m.fields = encodeFieldList m.fields ++ [] by simp,
    readFieldList_encode m.fields hf []]
  simp

theorem readDataFieldList_encode (fs : List (Option (List Nat)))
    (h : ∀ o ∈ fs, (o.getD []).length < 4294967295) (s : List Nat) :
    readDataFieldList fs.length (encodeDataFieldList fs ++ s) = .ok fs s := by
  induction fs with
  | nil => simp [readDataFieldList, encodeDataFieldList]
  | cons o fs ih =>
    have ih' := ih (fun g hg => h g (List.mem_cons_of_mem o hg))
    cases o with
    | none =>
      simp only [List.length_cons, readDataFieldList, encodeDataFieldList,
        List.cons_append, List.nil_append, read_u32]
      norm_num
      rw [ih', RR.then_ok]
    | some v =>
      have hv : v.length < 4294967295 := by simpa using h (some v) (by simp)
      simp only [List.length_cons, readDataFieldList, encodeDataFieldList,
        List.append_assoc, read_u32_be, RR.then_ok,
        Nat.mod_eq_of_lt (show v.length < 4294967296 by omega)]
      rw [if_neg (by omega), read_bytes_of_length v _ rfl, RR.then_ok, ih',
        RR.then_ok]

theorem DataRow.decode_encode_dr (m : DataRow) (h : m.WF) :
    BackendMessage.read_next_message m.encode = .ok (.dataRow m) [] := by
  obtain ⟨hf, hc, hlen⟩ := h
  have he : m.encode
      = 68 :: be32 ((encodeDataFieldList m.fields).length + 4 + 2)
          ++ (be16 m.fields.length ++ encodeDataFieldList m.fields) := by
    simp [DataRow.encode]
  rw [he, BackendMessage.decode_frame_b 68 _ _ (by omega) (by omega)
    (by simp <;> omega)]
  simp only [runBuf, DataRow.read_next_message, read_u16_be,
    Nat.mod_eq_of_lt hc, RR.then_ok]
  rw [show encodeDataFieldList m.fields = encodeDataFieldList m.fields ++ [] by simp,
    readDataFieldList_encode m.fields hf []]
  simp

/-! ## Startup parameter-loop lemmas -/

/-- Folding `add_parameter` over a parameter list, as the decoders'
loops do starting from `Startup::new`. -/
def addAll (st : Startup) (ps : List (List Nat × List Nat)) : Startup :=
  ps.foldl (fun st kv => st.add_parameter kv.1 kv.2) st

@[simp] theorem addAll_nil (st : Startup) : addAll st [] = st := rfl

@[simp] theorem addAll_cons (st : Startup) (k v : List Nat)
    (ps : List (List Nat × List Nat)) :
    addAll st ((k, v) :: ps) = addAll (st.add_parameter k v) ps := rfl

theorem encodeParams_length (ps : List (List Nat × List Nat)) :
    (encodeParams ps).length = paramsSize ps := by
  induction ps with
  | nil => rfl
  | cons kv ps ih =>
    obtain ⟨k, v⟩ := kv
    simp [encodeParams, paramsSize, ih]
    omega

theorem addAll_major (st : Startup) (ps : List (List Nat × List Nat)) :
    (addAll st ps).protocol_major_version = st.protocol_major_version := by
  induction ps generalizing st with
  | nil => rfl
  | cons kv ps ih => obtain ⟨k, v⟩ := kv; simpa using ih (st.add_parameter k v)

theorem addAll_minor (st : Startup) (ps : List (List Nat × List Nat)) :
    (addAll st ps).protocol_minor_version = st.protocol_minor_version := by
  induction ps generalizing st with
  | nil => rfl
  | cons kv ps ih => obtain ⟨k, v⟩ := kv; simpa using ih (st.add_parameter k v)

theorem addAll_parameters (st : Startup) (ps : List (List Nat × List Nat)) :
    (addAll st ps).parameters = st.parameters ++ ps := by
  induction ps generalizing st with
  | nil => simp
  | cons kv ps ih =>
    obtain ⟨k, v⟩ := kv
    rw [addAll_cons, ih (st.add_parameter k v)]
    simp [Startup.add_parameter]

theorem addAll_length (st : Startup) (ps : List (List Nat × List Nat))
    (h : st.length + paramsSize ps < 4294967296) :
    (addAll st ps).length = st.length + paramsSize ps := by
  induction ps generalizing st with
  | nil => simp [paramsSize]
  | cons kv ps ih =>
    obtain ⟨k, v⟩ := kv
    have hs : paramsSize ((k, v) :: ps)
        = k.length + v.length + 2 + paramsSize ps := rfl
    rw [addAll_cons]
    have hst : (st.add_parameter k v).length
        = st.length + k.length + v.length + 2 := by
      simp only [Startup.add_parameter]
      omega
    rw [ih (st.add_parameter k v) (by rw [hst]; omega), hst]
    omega

theorem parseParamsFuel_encode (ps : List (List Nat × List Nat))
    (st : Startup) (rest : List Nat) (fuel : Nat)
    (h : ∀ kv ∈ ps, kv.1 ≠ [] ∧ 0 ∉ kv.1 ∧ 0 ∉ kv.2)
    (hf : (encodeParams ps ++ 0 :: rest).length < fuel) :
    parseParamsFuel fuel st (encodeParams ps ++ 0 :: rest)
      = .ok (addAll st ps) rest := by
  induction ps generalizing st fuel with
  | nil =>
    cases fuel with
    | zero => simp at hf
    | succ n =>
      simp [encodeParams, parseParamsFuel, read_string]
  | cons kv ps ih =>
    obtain ⟨k, v⟩ := kv
    obtain ⟨hk, hk0, hv0⟩ := h (k, v) (by simp)
    have h' := fun kv hkv => h kv (List.mem_cons_of_mem (k, v) hkv)
    cases fuel with
    | zero => simp at hf
    | succ n =>
      have hshape : encodeParams ((k, v) :: ps) ++ 0 :: rest
          = k ++ 0 :: (v ++ 0 :: (encodeParams ps ++ 0 :: rest)) := by
        simp [encodeParams]
      rw [hshape]
      simp only [parseParamsFuel, read_string_nul_free _ _ hk0, if_neg hk,
        read_string_nul_free _ _ hv0]
      have hlt : (encodeParams ps ++ 0 :: rest).length < n := by
        rw [hshape] at hf
        simp only [List.length_append, List.length_cons] at hf ⊢
        omega
      rw [ih (st.add_parameter k v) n h' hlt, addAll_cons]

theorem parseParams_encode (ps : List (List Nat × List Nat)) (st : Startup)
    (rest : List Nat)
    (h : ∀ kv ∈ ps, kv.1 ≠ [] ∧ 0 ∉ kv.1 ∧ 0 ∉ kv.2) :
    parseParams st (encodeParams ps ++ 0 :: rest) = .ok (addAll st ps) rest := by
  exact parseParamsFuel_encode ps st rest _ h (by omega)

theorem Startup.decode_encode_st (s : Startup) (h : s.WF) :
    StartupRequest.read_next_message s.encode = .ok (.startup s) [] := by
  obtain ⟨hmj, hmn, hlen, hbound, hps⟩ := h
  have hsize := encodeParams_length s.parameters
  have he : s.encode
      = be32 s.length ++ be16 3 ++ be16 0 ++ (encodeParams s.parameters ++ [0]) := by
    simp [Startup.encode, hmj, hmn]
  rw [he, StartupRequest.decode_frame_r s.length 3 0 _ (by omega) (by omega)
    (by omega) (by omega) (by simp [hsize]; omega)]
  rw [if_neg (by omega), if_neg (by omega), if_pos ⟨rfl, rfl⟩]
  simp only [runBuf]
  rw [show encodeParams s.parameters ++ [0]
      = encodeParams s.parameters ++ 0 :: [] from rfl,
    parseParams_encode s.parameters Startup.new [] hps]
  have hfinal : addAll Startup.new s.parameters = s := by
    have h1 := addAll_major Startup.new s.parameters
    have h2 := addAll_minor Startup.new s.parameters
    have h3 := addAll_parameters Startup.new s.parameters
    have h4 := addAll_length Startup.new s.parameters (by
      have h9 : Startup.new.length = 9 := rfl
      rw [h9]; omega)
    cases hA : addAll Startup.new s.parameters with
    | mk a b c d =>
      rw [hA] at h1 h2 h3 h4
      simp only [Startup.new, Startup.default] at h1 h2 h3 h4
      cases s with
      | mk l mj mn ps =>
        simp only at hmj hmn hlen h1 h2 h3 h4 ⊢
        simp only [Startup.mk.injEq]
        exact ⟨by omega, by rw [h1, hmj], by rw [h2, hmn], by simpa using h3⟩
  rw [hfinal]

/-! ## Claim C4 -/

/-- The `if let ReadyForQuery` check of the backend startup iterator. -/
def isRFQs : StartupResponse → Bool
  | .readyForQuery _ => true
  | _ => false

/-- The `if let ReadyForQuery` check of the backend operational
iterator. -/
def isRFQb : BackendMessage → Bool
  | .readyForQuery _ => true
  | _ => false

/-- The `Termination` check of the frontend operational iterator. -/
def isTermF : FrontendMessage → Bool
  | .termination _ => true
  | _ => false

/-- C4: each role sequence yields every successfully decoded message;
the terminal message (`ReadyForQuery` for the two backend sequences,
`Termination` for the frontend sequence) sets the `finished` flag on
the pull that yields it, and a finished sequence yields
end-of-sequence on every further pull — so each sequence ends exactly
one pull after its terminal message. -/
theorem C4_phase_termination :
    (∀ st : IterSt, st.finished = true → backendStartupNext st = .yields none st) ∧
    (∀ (st : IterSt) (m : StartupResponse) (rest : List Nat),
      st.finished = false →
      StartupResponse.read_next_message st.stream = .ok (some m) rest →
      backendStartupNext st = .yields (some m) ⟨rest, isRFQs m⟩) ∧
    (∀ st : IterSt, st.finished = true → backendOpNext st = .yields none st) ∧
    (∀ (st : IterSt) (m : BackendMessage) (rest : List Nat),
      st.finished = false →
      BackendMessage.read_next_message st.stream = .ok m rest →
      backendOpNext st = .yields (some m) ⟨rest, isRFQb m⟩) ∧
    (∀ st : IterSt, st.finished = true → frontendNext st = .yields none st) ∧
    (∀ (st : IterSt) (m : FrontendMessage) (rest : List Nat),
      st.finished = false →
      FrontendMessage.read_next_message st.stream = .ok m rest →
      frontendNext st = .yields (some m) ⟨rest, isTermF m⟩) := by
  refine ⟨?_, ?_, ?_, ?_, ?_, ?_⟩
  · intro st h; simp [backendStartupNext, h]
  · intro st m rest hf hd
    simp only [backendStartupNext, hf, Bool.false_eq_true, if_false, hd]
    cases m <;> rfl
  · intro st h; simp [backendOpNext, h]
  · intro st m rest hf hd
    simp only [backendOpNext, hf, Bool.false_eq_true, if_false, hd]
    cases m <;> rfl
  · intro st h; simp [frontendNext, h]
  · intro st m rest hf hd
    simp only [frontendNext, hf, Bool.false_eq_true, if_false, hd]
    cases m <;> rfl

/-- Witness for C4 at concrete inputs: a finished backend operational
sequence yields nothing, and a pull decoding `ReadyForQuery{Idle}`
yields it and finishes the sequence. -/
theorem C4_phase_termination_witness :
    backendOpNext ⟨[], true⟩ = .yields none ⟨[], true⟩ ∧
    backendOpNext ⟨[90, 0, 0, 0, 5, 73], false⟩ =
      .yields (some (.readyForQuery ⟨.idle⟩)) ⟨[], true⟩ := by
  constructor
  · exact C4_phase_termination.2.2.1 ⟨[], true⟩ rfl
  · exact C4_phase_termination.2.2.2.1 ⟨[90, 0, 0, 0, 5, 73], false⟩
      (BackendMessage.readyForQuery ⟨TransactionStatus.idle⟩) [] rfl (by decide)

/-! ## Claim C5 -/

/-- C5 (amended): in the cooperative adapter a decode or transport
error is returned to the caller of the current pull and permanently
terminates the sequence, and finished sequences stay exhausted; in the
blocking adapters an error is logged and surfaced as a message-less
pull (`None`, not an error value) *without* setting the `finished`
flag, so the sequence is not permanently terminated. -/
theorem C5_failure_semantics :
    (∀ st : IterSt, st.finished = true → asyncBackendOpNext st = .ready (.ok none) st) ∧
    (∀ (st : IterSt) (e : String) (rest : List Nat),
      st.finished = false →
      BackendMessage.read_next_message st.stream = .err e rest →
      asyncBackendOpNext st = .ready (.error e) ⟨rest, true⟩) ∧
    (∀ st : IterSt, st.finished = true → asyncBackendStartupNext st = .ready (.ok none) st) ∧
    (∀ (st : IterSt) (e : String) (rest : List Nat),
      st.finished = false →
      StartupResponse.read_next_message_async st.stream = .err e rest →
      asyncBackendStartupNext st = .ready (.error e) ⟨rest, true⟩) ∧
    (∀ (st : IterSt) (e : String) (rest : List Nat),
      st.finished = false →
      BackendMessage.read_next_message st.stream = .err e rest →
      backendOpNext st = .yields none ⟨rest, false⟩) ∧
    (∀ (st : IterSt) (e : String) (rest : List Nat),
      st.finished = false →
      StartupResponse.read_next_message st.stream = .err e rest →
      backendStartupNext st = .yields none ⟨rest, false⟩) ∧
    (∀ (st : IterSt) (e : String) (rest : List Nat),
      st.finished = false →
      FrontendMessage.read_next_message st.stream = .err e rest →
      frontendNext st = .yields none ⟨rest, false⟩) := by
  refine ⟨?_, ?_, ?_, ?_, ?_, ?_, ?_⟩
  · intro st h; simp [asyncBackendOpNext, h]
  · intro st e rest hf hd
    simp [asyncBackendOpNext, BackendMessage.read_next_message_async, hf, hd]
  · intro st h; simp [asyncBackendStartupNext, h]
  · intro st e rest hf hd
    simp [asyncBackendStartupNext, hf, hd]
  · intro st e rest hf hd
    simp [backendOpNext, hf, hd]
  · intro st e rest hf hd
    simp [backendStartupNext, hf, hd]
  · intro st e rest hf hd
    simp [frontendNext, hf, hd]

/-- Counterexample to C5 as stated: in the blocking backend
operational sequence, the pull that hits the decode error on the
unknown-type frame `W . . . .` yields `None` (no error value reaches
the caller) and does not finish the sequence, and the very next pull
decodes the following `NoData` frame and produces a message. -/
theorem C5_sync_error_not_terminal :
    backendOpNext ⟨[87, 0, 0, 0, 4, 110, 0, 0, 0, 4], false⟩
      = .yields none ⟨[110, 0, 0, 0, 4], false⟩ ∧
    backendOpNext ⟨[110, 0, 0, 0, 4], false⟩
      = .yields (some (.noData ⟨⟩)) ⟨[], false⟩ := by
  constructor
  · decide
  · decide

/-- Witness for C5 at concrete inputs: the cooperative pull on the
same unknown-type frame returns the decode error to the caller and
finishes the sequence, after which pulls return `Ok(None)`. -/
theorem C5_failure_semantics_witness :
    asyncBackendOpNext ⟨[87, 0, 0, 0, 4], false⟩
      = .ready (.error "unhandled message type") ⟨[], true⟩ ∧
    asyncBackendOpNext ⟨[], true⟩ = .ready (.ok none) ⟨[], true⟩ := by
  constructor
  · exact C5_failure_semantics.2.1 ⟨[87, 0, 0, 0, 4], false⟩
      "unhandled message type" [] rfl (by decide)
  · exact C5_failure_semantics.1 ⟨[], true⟩ rfl

/-! ## Claims C2, C6, C7, C8, C10 -/

/-- C2: decoding the well-formed `Error` frame
`E | length 5 | AA` followed by the byte `AB` consumes *seven* bytes
instead of the frame's `1 + 5`: the dispatcher has already read the
one payload byte `AA` into the scratch buffer, and the `E` arm then
reads `length - 4` bytes from the stream again, swallowing `AB`.  The
remainder is `[]` where exact frame consumption would leave `[171]`. -/
theorem C2_error_frame_overconsumes :
    BackendMessage.read_next_message [69, 0, 0, 0, 5, 170, 171]
      = .ok (.error 5) [] ∧
    List.drop (1 + 5) [69, 0, 0, 0, 5, 170, 171] = [171] := by
  constructor
  · decide
  · decide

/-- C6 (amended): `StartupRequest` decode dispatches on the
`(length, major, minor)` triple exactly as claimed —
`(8,1234,5679) → SSLRequest`, `(16,1234,5678) → CancelRequest` with
the next two `u32`s, `(any length, 3, 0) → Startup` collecting the
NUL-terminated pairs up to the empty-key sentinel — but an
unsupported triple `panic!`s (diverges) instead of returning an error
value to the caller. -/
theorem C6_startup_request_dispatch :
    (∀ rest : List Nat,
      StartupRequest.read_next_message (be32 8 ++ be16 1234 ++ be16 5679 ++ rest)
        = .ok (.sslRequest ⟨⟩) rest) ∧
    (∀ pid key : Nat, pid < 4294967296 → key < 4294967296 →
      StartupRequest.read_next_message
          (be32 16 ++ be16 1234 ++ be16 5678 ++ (be32 pid ++ be32 key))
        = .ok (.cancelRequest ⟨pid, key⟩) []) ∧
    (∀ (L : Nat) (ps : List (List Nat × List Nat)),
      L < 4294967296 →
      (∀ kv ∈ ps, kv.1 ≠ [] ∧ 0 ∉ kv.1 ∧ 0 ∉ kv.2) →
      L = 9 + paramsSize ps →
      StartupRequest.read_next_message
          (be32 L ++ be16 3 ++ be16 0 ++ (encodeParams ps ++ 0 :: []))
        = .ok (.startup (addAll Startup.new ps)) []) ∧
    (∀ (L mj mn : Nat) (payload : List Nat),
      L < 4294967296 → mj < 65536 → mn < 65536 →
      8 ≤ L → payload.length = L - 8 →
      ¬(L = 8 ∧ mj = 1234 ∧ mn = 5679) →
      ¬(L = 16 ∧ mj = 1234 ∧ mn = 5678) →
      ¬(mj = 3 ∧ mn = 0) →
      StartupRequest.read_next_message (be32 L ++ be16 mj ++ be16 mn ++ payload)
        = .panicked "Unsupported protocol version") := by
  refine ⟨?_, ?_, ?_, ?_⟩
  · intro rest
    simp only [StartupRequest.read_next_message, List.append_assoc, read_u32_be,
      read_u16_be, RR.then_ok]
    norm_num [read_bytes]
  · intro pid key hp hk
    exact CancelRequest.decode_encode_cr pid key hp hk
  · intro L ps hL hps hlen
    rw [StartupRequest.decode_frame_r L 3 0 _ hL (by omega) (by omega) (by omega)
      (by simp [encodeParams_length]; omega)]
    rw [if_neg (by omega), if_neg (by omega), if_pos ⟨rfl, rfl⟩]
    simp only [runBuf]
    rw [parseParams_encode ps Startup.new [] hps]
  · intro L mj mn payload hL hmj hmn h8 hlen h1 h2 h3
    rw [StartupRequest.decode_frame_r L mj mn payload hL hmj hmn h8 hlen]
    rw [if_neg h1, if_neg h2, if_neg h3]

/-- Counterexample to C6 as stated: on the unsupported triple
`(8, 4, 0)` (with its zero payload bytes available) the decoder
panics — it does not return an "unsupported protocol" error value to
the caller. -/
theorem C6_unsupported_triple_panics :
    StartupRequest.read_next_message [0, 0, 0, 8, 0, 4, 0, 0]
      = .panicked "Unsupported protocol version" := by
  decide

/-- Witness for C6 at concrete inputs: the three supported triples
dispatch as claimed. -/
theorem C6_startup_request_dispatch_witness :
    StartupRequest.read_next_message (be32 8 ++ be16 1234 ++ be16 5679 ++ [])
      = .ok (.sslRequest ⟨⟩) [] ∧
    StartupRequest.read_next_message
        (be32 16 ++ be16 1234 ++ be16 5678 ++ (be32 7 ++ be32 9))
      = .ok (.cancelRequest ⟨7, 9⟩) [] ∧
    StartupRequest.read_next_message
        (be32 14 ++ be16 3 ++ be16 0 ++ (encodeParams [([117], [97, 98])] ++ 0 :: []))
      = .ok (.startup (addAll Startup.new [([117], [97, 98])])) [] ∧
    StartupRequest.read_next_message (be32 8 ++ be16 4 ++ be16 0 ++ [])
      = .panicked "Unsupported protocol version" := by
  refine ⟨C6_startup_request_dispatch.1 [],
    C6_startup_request_dispatch.2.1 7 9 (by decide) (by decide),
    C6_startup_request_dispatch.2.2.1 14 [([117], [97, 98])] (by decide)
      (by decide) (by decide),
    C6_startup_request_dispatch.2.2.2 8 4 0 [] (by decide) (by decide)
      (by decide) (by decide) (by decide) (by decide) (by decide) (by decide)⟩

/-- C7 (amended): for an input whose first byte is none of
`R`/`S`/`K`/`Z`, the *asynchronous* `StartupResponse` decode returns
an error to the caller; the *synchronous* decode, however, logs the
frame and returns a successful `None` after consuming it. -/
theorem C7_unknown_type_byte :
    (∀ (t L : Nat) (payload : List Nat),
      t ≠ 82 → t ≠ 83 → t ≠ 75 → t ≠ 90 →
      L < 4294967296 → 4 ≤ L → payload.length = L - 4 →
      StartupResponse.read_next_message_async (t :: be32 L ++ payload)
        = .err "unsupported message type" []) ∧
    (∀ (t L : Nat) (payload : List Nat),
      t ≠ 82 → t ≠ 83 → t ≠ 75 → t ≠ 90 →
      L < 4294967296 → 4 ≤ L → payload.length = L - 4 →
      StartupResponse.read_next_message (t :: be32 L ++ payload)
        = .ok none []) := by
  constructor
  · intro t L payload h82 h83 h75 h90 hL h4 hlen
    rw [StartupResponse.decode_frame_s_async t L payload hL h4 hlen]
    rw [if_neg h82, if_neg h83, if_neg h75, if_neg h90]
  · intro t L payload h82 h83 h75 h90 hL h4 hlen
    rw [StartupResponse.decode_frame_s t L payload hL h4 hlen]
    rw [if_neg h82, if_neg h83, if_neg h75, if_neg h90]

/-- Counterexample to C7 as stated: the synchronous decode of the
frame with unknown type byte `X` returns the successful empty result
`Ok(None)`, not an error. -/
theorem C7_sync_unknown_type_ok_none :
    StartupResponse.read_next_message [88, 0, 0, 0, 4] = .ok none [] := by
  decide

/-- Witness for C7 at a concrete input: type byte `X`, length 4. -/
theorem C7_unknown_type_byte_witness :
    StartupResponse.read_next_message_async (88 :: be32 4 ++ [])
      = .err "unsupported message type" [] ∧
    StartupResponse.read_next_message (88 :: be32 4 ++ []) = .ok none [] := by
  refine ⟨C7_unknown_type_byte.1 88 4 [] (by decide) (by decide) (by decide)
    (by decide) (by decide) (by decide) (by decide),
    C7_unknown_type_byte.2 88 4 [] (by decide) (by decide) (by decide)
    (by decide) (by decide) (by decide) (by decide)⟩

/-- C8 (amended): decoding the `ReadyForQuery` status byte maps
`I`/`T`/`E` to the three non-`Unknown` statuses, decoding never
produces `Unknown`, and encoding `Unknown` emits nothing — but any
other status byte makes `from_u8` panic (diverge) rather than report
a recoverable decode-error value. -/
theorem C8_transaction_status :
    TransactionStatus.from_u8 73 = .ok .idle ∧
    TransactionStatus.from_u8 84 = .ok .inTransaction ∧
    TransactionStatus.from_u8 69 = .ok .inFailedTransaction ∧
    (∀ b : Nat, b ≠ 73 → b ≠ 84 → b ≠ 69 →
      TransactionStatus.from_u8 b = .panicked "unknown transaction status") ∧
    (∀ (b : Nat) (t : TransactionStatus),
      TransactionStatus.from_u8 b = .ok t → t ≠ .unknown) ∧
    TransactionStatus.to_u8 .unknown = .panicked "unknown transaction status" := by
  refine ⟨rfl, rfl, rfl, ?_, ?_, rfl⟩
  · intro b h73 h84 h69
    simp [TransactionStatus.from_u8, h73, h84, h69]
  · intro b t h
    by_cases h73 : b = 73
    · subst h73; simp [TransactionStatus.from_u8] at h; simp [← h]
    · by_cases h84 : b = 84
      · subst h84; simp [TransactionStatus.from_u8] at h; simp [← h]
      · by_cases h69 : b = 69
        · subst h69; simp [TransactionStatus.from_u8] at h; simp [← h]
        · simp [TransactionStatus.from_u8, h73, h84, h69] at h

/-- Counterexample to C8 as stated: decoding the status byte `X`
panics (diverges) instead of reporting a recoverable decode-error
value. -/
theorem C8_unknown_status_panics :
    ReadyForQuery.read_next_message [88]
      = .panicked "unknown transaction status" := by
  decide

/-- Witness for C8 at concrete inputs. -/
theorem C8_transaction_status_witness :
    TransactionStatus.from_u8 88 = .panicked "unknown transaction status" ∧
    TransactionStatus.idle ≠ TransactionStatus.unknown := by
  refine ⟨C8_transaction_status.2.2.2.1 88 (by decide) (by decide) (by decide),
    C8_transaction_status.2.2.2.2.1 73 .idle (by decide)⟩

theorem takeWhile_ne_zero_eq_self_iff (q : List Nat) :
    q.takeWhile (· ≠ 0) = q ↔ 0 ∉ q := by
  rw [List.takeWhile_eq_self_iff]
  constructor
  · intro h hm
    have := h 0 hm
    simp at this
  · intro h a ha
    simp only [ne_eq, decide_eq_true_eq]
    intro ha0
    subst ha0
    exact h ha

/-- C10: `SimpleQuery` round-trips exactly on NUL-free text — the
decode of the encoding is the query truncated at its first NUL byte,
so the round-trip equality holds if and only if the text has no NUL. -/
theorem C10_simple_query_round_trip (q : List Nat)
    (hlen : q.length + 5 < 4294967296) :
    FrontendMessage.read_next_message ((SimpleQuery.mk q).encode)
      = .ok (.simpleQuery ⟨q.takeWhile (· ≠ 0)⟩) [] ∧
    (FrontendMessage.read_next_message ((SimpleQuery.mk q).encode)
      = .ok (.simpleQuery ⟨q⟩) [] ↔ 0 ∉ q) := by
  have h1 := SimpleQuery.decode_encode_sq q hlen
  refine ⟨h1, ?_⟩
  rw [h1]
  simp only [RR.ok.injEq, FrontendMessage.simpleQuery.injEq, SimpleQuery.mk.injEq,
    and_true]
  exact takeWhile_ne_zero_eq_self_iff q

/-- Witness for C10 at concrete inputs: `a` round-trips; `a\0b` decodes
to `a`. -/
theorem C10_simple_query_round_trip_witness :
    FrontendMessage.read_next_message ((SimpleQuery.mk [97]).encode)
      = .ok (.simpleQuery ⟨[97]⟩) [] ∧
    FrontendMessage.read_next_message ((SimpleQuery.mk [97, 0, 98]).encode)
      = .ok (.simpleQuery ⟨[97]⟩) [] := by
  constructor
  · exact (C10_simple_query_round_trip [97] (by decide)).2.mpr (by decide)
  · have := (C10_simple_query_round_trip [97, 0, 98] (by decide)).1
    simpa using this

/-! ## Claim C9 -/

/-- The `Startup` values reachable through `new()`/`default()` and
`add_parameter` (which is also how both decoders build them). -/
inductive Startup.Reachable : Startup → Prop where
  | base : Startup.Reachable Startup.default
  | step (k v : List Nat) {s : Startup} :
      Startup.Reachable s → Startup.Reachable (s.add_parameter k v)

theorem paramsSize_append (ps qs : List (List Nat × List Nat)) :
    paramsSize (ps ++ qs) = paramsSize ps + paramsSize qs := by
  induction ps with
  | nil => simp [paramsSize]
  | cons kv ps ih =>
    obtain ⟨k, v⟩ := kv
    simp [paramsSize, ih]
    omega

theorem Startup.encode_length (s : Startup) :
    s.encode.length = 9 + paramsSize s.parameters := by
  simp [Startup.encode, encodeParams_length]
  omega

theorem Startup.reachable_length {s : Startup} (h : s.Reachable)
    (hb : 9 + paramsSize s.parameters < 4294967296) :
    s.length = 9 + paramsSize s.parameters := by
  induction h with
  | base => simp [Startup.default, paramsSize]
  | step k v hr ih =>
    rename_i s'
    have hps : (s'.add_parameter k v).parameters = s'.parameters ++ [(k, v)] := rfl
    rw [hps, paramsSize_append] at hb ⊢
    simp only [paramsSize] at hb ⊢
    have hb' : 9 + paramsSize s'.parameters < 4294967296 := by omega
    have hlen := ih hb'
    simp only [Startup.add_parameter, hlen]
    omega

theorem parseParamsFuel_reachable (fuel : Nat) :
    ∀ (st : Startup) (s : List Nat) (st' : Startup) (r : List Nat),
      st.Reachable → parseParamsFuel fuel st s = .ok st' r → st'.Reachable := by
  induction fuel with
  | zero =>
    intro st s st' r _ h
    simp [parseParamsFuel] at h
  | succ n ih =>
    intro st s st' r hst h
    rw [parseParamsFuel] at h
    cases hrs : read_string s with
    | ok key s1 =>
      rw [hrs] at h
      dsimp only at h
      by_cases hk : key = []
      · rw [if_pos hk] at h
        injection h with h1 h2
        subst h1
        exact hst
      · rw [if_neg hk] at h
        cases hrs2 : read_string s1 with
        | ok value s2 =>
          rw [hrs2] at h
          dsimp only at h
          exact ih _ _ _ _ (Startup.Reachable.step key value hst) h
        | err m r2 => rw [hrs2] at h; simp at h
        | panicked m => rw [hrs2] at h; simp at h
    | err m r2 => rw [hrs] at h; simp at h
    | panicked m => rw [hrs] at h; simp at h

theorem parseParams_reachable {st : Startup} {s : List Nat} {st' : Startup}
    {r : List Nat} (hst : st.Reachable) (h : parseParams st s = .ok st' r) :
    st'.Reachable :=
  parseParamsFuel_reachable (s.length + 1) st s st' r hst h

theorem startupRequest_decode_reachable (input : List Nat) (s : Startup)
    (rest : List Nat)
    (h : StartupRequest.read_next_message input = .ok (.startup s) rest) :
    s.Reachable := by
  unfold StartupRequest.read_next_message at h
  cases h1 : read_u32 input with
  | err m r => rw [h1] at h; simp at h
  | panicked m => rw [h1] at h; simp at h
  | ok L s1 =>
    rw [h1, RR.then_ok] at h
    cases h2 : read_u16 s1 with
    | err m r => rw [h2] at h; simp at h
    | panicked m => rw [h2] at h; simp at h
    | ok mj s2 =>
      rw [h2, RR.then_ok] at h
      cases h3 : read_u16 s2 with
      | err m r => rw [h3] at h; simp at h
      | panicked m => rw [h3] at h; simp at h
      | ok mn s3 =>
        rw [h3, RR.then_ok] at h
        cases h4 : read_bytes (L - 8) s3 with
        | err m r => rw [h4] at h; simp at h
        | panicked m => rw [h4] at h; simp at h
        | ok buf s4 =>
          rw [h4, RR.then_ok] at h
          by_cases c1 : L = 8 ∧ mj = 1234 ∧ mn = 5679
          · rw [if_pos c1] at h; simp at h
          · rw [if_neg c1] at h
            by_cases c2 : L = 16 ∧ mj = 1234 ∧ mn = 5678
            · rw [if_pos c2] at h
              simp only [runBuf] at h
              cases hi : ((read_u32 buf).then fun process_id b =>
                  (read_u32 b).then fun secret_key b =>
                  RR.ok (⟨process_id, secret_key⟩ : CancelRequest) b) with
              | ok c r2 => rw [hi] at h; simp at h
              | err m r2 => rw [hi] at h; simp at h
              | panicked m => rw [hi] at h; simp at h
            · rw [if_neg c2] at h
              by_cases c3 : mj = 3 ∧ mn = 0
              · rw [if_pos c3] at h
                simp only [runBuf] at h
                cases hi : parseParams Startup.new buf with
                | ok st' r2 =>
                  rw [hi] at h
                  simp only [RR.ok.injEq, StartupRequest.startup.injEq] at h
                  obtain ⟨hs, _⟩ := h
                  subst hs
                  exact parseParams_reachable Startup.Reachable.base hi
                | err m r2 => rw [hi] at h; simp at h
                | panicked m => rw [hi] at h; simp at h
              · rw [if_neg c3] at h; simp at h

theorem startup_decode_reachable (input : List Nat) (s : Startup)
    (rest : List Nat) (h : Startup.read_next_message input = .ok s rest) :
    s.Reachable := by
  unfold Startup.read_next_message at h
  cases h1 : read_u32 input with
  | err m r => rw [h1] at h; simp at h
  | panicked m => rw [h1] at h; simp at h
  | ok L s1 =>
    rw [h1, RR.then_ok] at h
    cases h2 : read_u16 s1 with
    | err m r => rw [h2] at h; simp at h
    | panicked m => rw [h2] at h; simp at h
    | ok mj s2 =>
      rw [h2, RR.then_ok] at h
      cases h3 : read_u16 s2 with
      | err m r => rw [h3] at h; simp at h
      | panicked m => rw [h3] at h; simp at h
      | ok mn s3 =>
        rw [h3, RR.then_ok] at h
        by_cases cmj : mj = 3
        · rw [if_pos cmj] at h
          by_cases cmn : mn = 0
          · rw [if_pos cmn] at h
            cases h4 : read_bytes (L - 8) s3 with
            | err m r => rw [h4] at h; simp at h
            | panicked m => rw [h4] at h; simp at h
            | ok buf s4 =>
              rw [h4, RR.then_ok] at h
              simp only [runBuf] at h
              cases hi : parseParams Startup.new buf with
              | ok st' r2 =>
                rw [hi] at h
                simp only [id_eq, RR.ok.injEq] at h
                obtain ⟨hs, _⟩ := h
                subst hs
                exact parseParams_reachable Startup.Reachable.base hi
              | err m r2 => rw [hi] at h; simp at h
              | panicked m => rw [hi] at h; simp at h
          · rw [if_neg cmn] at h; simp at h
        · rw [if_neg cmj] at h; simp at h

/-- C9: for every `Startup` reachable through `new()`/`default()` and
`add_parameter` (as long as the total stays below the `u32` wrap
point), the stored length field equals `9` plus the sum over the
parameters of `key length + value length + 2`, and this equals the
byte length of `encode()`; both decoders only produce reachable
values. -/
theorem C9_startup_length_invariant :
    (∀ s : Startup, s.Reachable → 9 + paramsSize s.parameters < 4294967296 →
      s.length = 9 + paramsSize s.parameters ∧ s.encode.length = s.length) ∧
    (∀ (input : List Nat) (s : Startup) (rest : List Nat),
      StartupRequest.read_next_message input = .ok (.startup s) rest →
      s.Reachable) ∧
    (∀ (input : List Nat) (s : Startup) (rest : List Nat),
      Startup.read_next_message input = .ok s rest → s.Reachable) := by
  refine ⟨?_, startupRequest_decode_reachable, startup_decode_reachable⟩
  intro s hr hb
  have h1 := Startup.reachable_length hr hb
  exact ⟨h1, by rw [Startup.encode_length, h1]⟩

/-- Witness for C9 at a concrete input: `user=ab` has stored length
`9 + (1 + 2 + 2) = 14`, matching its 14-byte encoding. -/
theorem C9_startup_length_invariant_witness :
    (Startup.new.add_parameter [117] [97, 98]).length
        = 9 + paramsSize (Startup.new.add_parameter [117] [97, 98]).parameters ∧
    (Startup.new.add_parameter [117] [97, 98]).encode.length
        = (Startup.new.add_parameter [117] [97, 98]).length :=
  C9_startup_length_invariant.1 (Startup.new.add_parameter [117] [97, 98])
    (Startup.Reachable.step [117] [97, 98] Startup.Reachable.base)
    (by decide)

/-! ## Claim C1 -/

/-- C1 (amended): `decode(encode(m)) = m` holds for every
well-formed message value of every variant — NUL-free strings where
the wire delimits by NUL, counts and sizes within their `u16`/`u32`
wire widths, transaction status not `Unknown` — *except*
`BackendMessage::Error`, whose encoding carries the stored length but
no payload and only round-trips when that length is 4. -/
theorem C1_round_trip :
    (∀ fm : FrontendMessage, fm.WF →
      FrontendMessage.read_next_message fm.encode = .ok fm []) ∧
    (∀ bm : BackendMessage, bm.WF → decodeEncodedB bm = .ok bm []) ∧
    decodeEncodedB (.error 4) = .ok (.error 4) [] ∧
    (∀ sr : StartupRequest, sr.WF →
      StartupRequest.read_next_message sr.encode = .ok sr []) ∧
    (∀ sp : StartupResponse, sp.WF → decodeEncodedSR sp = .ok (some sp) []) ∧
    (∀ r : SSLResponse, SSLResponse.read_next_message r.encode = .ok r []) := by
  refine ⟨?_, ?_, by decide, ?_, ?_, ?_⟩
  · intro fm hw
    cases fm with
    | simpleQuery q =>
      obtain ⟨h0, hlen⟩ := hw
      have h := SimpleQuery.decode_encode_sq q.query hlen
      rw [(takeWhile_ne_zero_eq_self_iff q.query).mpr h0] at h
      exact h
    | termination t => cases t; decide
  · intro bm hw
    cases bm with
    | readyForQuery r =>
      cases r with
      | mk ts =>
        cases ts with
        | unknown => exact absurd rfl hw
        | idle => decide
        | inTransaction => decide
        | inFailedTransaction => decide
    | rowDescription m =>
      simp only [decodeEncodedB, BackendMessage.encode]
      exact RowDescription.decode_encode_rd m hw
    | dataRow m =>
      simp only [decodeEncodedB, BackendMessage.encode]
      exact DataRow.decode_encode_dr m hw
    | noData m => cases m; decide
    | commandComplete m =>
      obtain ⟨h0, hlen⟩ := hw
      simp only [decodeEncodedB, BackendMessage.encode]
      exact CommandComplete.decode_encode_cc m.tag h0 hlen
    | emptyQueryResponse m => cases m; decide
    | error n => exact absurd hw (by simp [BackendMessage.WF])
  · intro sr hw
    cases sr with
    | sslRequest m => cases m; decide
    | startup s => exact Startup.decode_encode_st s hw
    | cancelRequest c =>
      obtain ⟨hp, hk⟩ := hw
      exact CancelRequest.decode_encode_cr c.process_id c.secret_key hp hk
  · intro sp hw
    cases sp with
    | authentication a => cases a; decide
    | parameterStatus p =>
      obtain ⟨hn, hv, hlen⟩ := hw
      simp only [decodeEncodedSR, StartupResponse.encode]
      exact ParameterStatus.decode_encode_ps p.name p.value hn hv hlen
    | backendKeyData k =>
      obtain ⟨hp, hk⟩ := hw
      simp only [decodeEncodedSR, StartupResponse.encode]
      exact BackendKeyData.decode_encode_bkd k.process_id k.secret_key hp hk
    | readyForQuery r =>
      cases r with
      | mk ts =>
        cases ts with
        | unknown => exact absurd rfl hw
        | idle => decide
        | inTransaction => decide
        | inFailedTransaction => decide
  · intro r; cases r <;> decide

/-- Counterexample to C1 as stated: `BackendMessage::Error` with
stored length 5 encodes to the five header bytes alone, and decoding
that encoding fails (the decoder wants `5 - 4` payload bytes twice),
so `decode(encode(m)) ≠ m`. -/
theorem C1_error_no_round_trip :
    ¬ decodeEncodedB (.error 5) = .ok (.error 5) [] := by
  decide

/-- Witness for C1 at concrete inputs, one per variant group. -/
theorem C1_round_trip_witness :
    FrontendMessage.read_next_message
        (FrontendMessage.encode (.simpleQuery ⟨[97]⟩))
      = .ok (.simpleQuery ⟨[97]⟩) [] ∧
    decodeEncodedB (.commandComplete ⟨[65]⟩)
      = .ok (.commandComplete ⟨[65]⟩) [] ∧
    StartupRequest.read_next_message
        (StartupRequest.encode (.startup (Startup.new.add_parameter [117] [97])))
      = .ok (.startup (Startup.new.add_parameter [117] [97])) [] ∧
    decodeEncodedSR (.parameterStatus ⟨[110], [118]⟩)
      = .ok (some (.parameterStatus ⟨[110], [118]⟩)) [] ∧
    SSLResponse.read_next_message (SSLResponse.encode .n) = .ok .n [] := by
  refine ⟨C1_round_trip.1 _ ⟨by decide, by decide⟩,
    C1_round_trip.2.1 _ ⟨by decide, by decide⟩,
    C1_round_trip.2.2.2.1 _ ?_,
    C1_round_trip.2.2.2.2.1 _ ⟨by decide, by decide, by decide⟩,
    C1_round_trip.2.2.2.2.2 .n⟩
  refine ⟨rfl, rfl, by decide, by decide, by decide⟩

/-! ## Claim C3 -/

/-- C3 (amended): for every well-formed operational message except
`BackendMessage::Error`, the `u32` at byte offset 1 of the encoding
equals the total encoded length minus 1; for `Error` it is the stored
length written verbatim, which satisfies the property exactly when
that stored length is 4; for every well-formed pre-startup message
(`SSLRequest`, builder-reachable `Startup`, `CancelRequest`) the `u32`
at byte offset 0 equals the total encoded length. -/
theorem C3_length_field :
    (∀ fm : FrontendMessage, fm.WF →
      u32At fm.encode 1 = fm.encode.length - 1) ∧
    (∀ (bm : BackendMessage) (bs : List Nat), bm.WF → bm.encode = .ok bs →
      u32At bs 1 = bs.length - 1) ∧
    (∀ (L : Nat) (bs : List Nat), L < 4294967296 →
      BackendMessage.encode (.error L) = .ok bs →
      (u32At bs 1 = bs.length - 1 ↔ L = 4)) ∧
    (∀ (sp : StartupResponse) (bs : List Nat), sp.WF → sp.encode = .ok bs →
      u32At bs 1 = bs.length - 1) ∧
    (∀ sr : StartupRequest, sr.WF →
      u32At sr.encode 0 = sr.encode.length) := by
  refine ⟨?_, ?_, ?_, ?_, ?_⟩
  · intro fm hw
    cases fm with
    | simpleQuery q =>
      obtain ⟨h0, hlen⟩ := hw
      rw [show (FrontendMessage.simpleQuery q).encode
          = 81 :: be32 (q.query.length + 4 + 1) ++ (q.query ++ [0]) from by
        simp [FrontendMessage.encode, SimpleQuery.encode]]
      rw [u32At_cons_be32]
      simp only [List.length_cons, List.length_append, be32_length,
        List.length_singleton, List.length_nil]
      omega
    | termination t => cases t; decide
  · intro bm bs hw he
    cases bm with
    | readyForQuery r =>
      cases r with
      | mk ts =>
        cases ts with
        | unknown => exact absurd rfl hw
        | idle => injection he with h; subst h; decide
        | inTransaction => injection he with h; subst h; decide
        | inFailedTransaction => injection he with h; subst h; decide
    | rowDescription m =>
      simp only [BackendMessage.encode, PR.ok.injEq] at he
      subst he
      obtain ⟨_, _, hlen⟩ := hw
      rw [show m.encode
          = 84 :: be32 ((encodeFieldList m.fields).length + 4 + 2)
              ++ (be16 m.fields.length ++ encodeFieldList m.fields) from by
        simp [RowDescription.encode]]
      rw [u32At_cons_be32]
      simp only [List.length_cons, List.length_append, be32_length, be16_length,
        List.length_nil]
      omega
    | dataRow m =>
      simp only [BackendMessage.encode, PR.ok.injEq] at he
      subst he
      obtain ⟨_, _, hlen⟩ := hw
      rw [show m.encode
          = 68 :: be32 ((encodeDataFieldList m.fields).length + 4 + 2)
              ++ (be16 m.fields.length ++ encodeDataFieldList m.fields) from by
        simp [DataRow.encode]]
      rw [u32At_cons_be32]
      simp only [List.length_cons, List.length_append, be32_length, be16_length,
        List.length_nil]
      omega
    | noData m => cases m; injection he with h; subst h; decide
    | commandComplete m =>
      simp only [BackendMessage.encode, PR.ok.injEq] at he
      subst he
      obtain ⟨h0, hlen⟩ := hw
      rw [show m.encode
          = 67 :: be32 (4 + (m.tag.length + 1)) ++ (m.tag ++ [0]) from by
        simp [CommandComplete.encode]]
      rw [u32At_cons_be32]
      simp only [List.length_cons, List.length_append, be32_length,
        List.length_singleton, List.length_nil]
      omega
    | emptyQueryResponse m => cases m; injection he with h; subst h; decide
    | error n => exact absurd hw (by simp [BackendMessage.WF])
  · intro L bs hL he
    injection he with h
    subst h
    rw [show (69 : Nat) :: be32 L = 69 :: be32 L ++ [] from by simp]
    rw [u32At_cons_be32]
    simp only [List.length_append, List.length_cons, be32_length,
      List.length_nil]
    omega
  · intro sp bs hw he
    cases sp with
    | authentication a => cases a; injection he with h; subst h; decide
    | parameterStatus p =>
      simp only [StartupResponse.encode, PR.ok.injEq] at he
      subst he
      obtain ⟨hn, hv, hlen⟩ := hw
      rw [show p.encode
          = 83 :: be32 (4 + p.name.length + 1 + p.value.length + 1)
              ++ (p.name ++ 0 :: (p.value ++ [0])) from by
        simp [ParameterStatus.encode]]
      rw [u32At_cons_be32]
      simp only [List.length_cons, List.length_append, be32_length,
        List.length_singleton, List.length_nil]
      omega
    | backendKeyData k =>
      simp only [StartupResponse.encode, PR.ok.injEq] at he
      subst he
      rw [show k.encode = 75 :: be32 12 ++ (be32 k.process_id ++ be32 k.secret_key)
          from by simp [BackendKeyData.encode]]
      rw [u32At_cons_be32]
      simp
    | readyForQuery r =>
      cases r with
      | mk ts =>
        cases ts with
        | unknown => exact absurd rfl hw
        | idle => injection he with h; subst h; decide
        | inTransaction => injection he with h; subst h; decide
        | inFailedTransaction => injection he with h; subst h; decide
  · intro sr hw
    cases sr with
    | sslRequest m => cases m; decide
    | startup s =>
      obtain ⟨hmj, hmn, hlen, hbound, _⟩ := hw
      simp only [StartupRequest.encode]
      rw [Startup.encode_length]
      rw [show s.encode
          = be32 s.length ++ (be16 s.protocol_major_version
              ++ (be16 s.protocol_minor_version
                ++ (encodeParams s.parameters ++ [0]))) from by
        simp [Startup.encode]]
      rw [u32At_be32]
      omega
    | cancelRequest c =>
      simp only [StartupRequest.encode]
      rw [show c.encode
          = be32 16 ++ (be16 1234 ++ (be16 5678
              ++ (be32 c.process_id ++ be32 c.secret_key))) from by
        simp [CancelRequest.encode]]
      rw [u32At_be32]
      simp

/-- Counterexample to C3 as stated: the encoding of
`BackendMessage::Error { length: 5 }` is the five bytes
`E 00 00 00 05`, whose `u32` at offset 1 is 5 while the total length
minus 1 is 4. -/
theorem C3_error_length_field_counterexample :
    BackendMessage.encode (.error 5) = .ok [69, 0, 0, 0, 5] ∧
    ¬ u32At [69, 0, 0, 0, 5] 1 = [69, 0, 0, 0, 5].length - 1 := by
  constructor
  · decide
  · decide

/-- Witness for C3 at concrete inputs. -/
theorem C3_length_field_witness :
    u32At (FrontendMessage.encode (.simpleQuery ⟨[97]⟩)) 1
      = (FrontendMessage.encode (.simpleQuery ⟨[97]⟩)).length - 1 ∧
    u32At [90, 0, 0, 0, 5, 73] 1 = ([90, 0, 0, 0, 5, 73] : List Nat).length - 1 ∧
    (u32At [69, 0, 0, 0, 4] 1 = ([69, 0, 0, 0, 4] : List Nat).length - 1 ↔ 4 = 4) ∧
    u32At (StartupRequest.encode (.cancelRequest ⟨7, 9⟩)) 0
      = (StartupRequest.encode (.cancelRequest ⟨7, 9⟩)).length := by
  refine ⟨C3_length_field.1 _ ⟨by decide, by decide⟩,
    C3_length_field.2.1 (.readyForQuery ⟨.idle⟩) _ (by simp [BackendMessage.WF, ReadyForQuery.WF]) rfl,
    C3_length_field.2.2.1 4 _ (by decide) rfl,
    C3_length_field.2.2.2.2 (.cancelRequest ⟨7, 9⟩) ⟨by decide, by decide⟩⟩
